import Mathlib

/-!
# learnd3d11: resize lifecycle, render-state catalog and frame sequencing

Shallow embedding of `DebugLayerApplication.cpp` (chapter 1-2-2) and
`CameraApplication.cpp` (chapter 1-3-6).

Every application object is a record of its members.  A `ComPtr` / `unique_ptr`
member is an `Option`: `none` is the empty pointer.  A running application is the
object together with a `trace`: each call the code makes to the native API, to a
collaborator class or to one of its own lifecycle helpers is appended to the trace
in program order, together with the list of swapchain-dependent views that are
non-empty at the moment of the call.

The result of a fallible native call is an input of the model: a function that
makes several such calls takes `hr : Nat → Bool`, where `hr k` says whether the
`k`-th fallible call of that invocation (in source order, from 0) succeeded.
-/

namespace LearnD3D11

/-! ## Native API data -/

/-- Identity of an object handed out by the device or the swapchain. -/
abbrev Handle := Nat

/-- Stream a diagnostic is written to: `std::cout` or `std::cerr`. -/
inductive OStream
  | cout
  | cerr
  deriving DecidableEq, Repr

/-- The `DXGI_FORMAT` values that occur in the two applications. -/
inductive DXGI_FORMAT
  | UNKNOWN
  | B8G8R8A8_UNORM
  | D24_UNORM_S8_UINT
  deriving DecidableEq, Repr

/-- Comparison functions of `D3D11_COMPARISON_FUNC`; `ZERO` is the value left by `= {}`. -/
inductive D3D11_COMPARISON_FUNC
  | ZERO
  | NEVER
  | LESS
  | EQUAL
  | LESS_EQUAL
  | GREATER
  | NOT_EQUAL
  | GREATER_EQUAL
  | ALWAYS
  deriving DecidableEq, Repr

/-- Depth write masks of `D3D11_DEPTH_WRITE_MASK`. -/
inductive D3D11_DEPTH_WRITE_MASK
  | ZERO
  | ALL
  deriving DecidableEq, Repr

/-- The members of `D3D11_DEPTH_STENCIL_DESC` that `CreateDepthStencilStates` assigns; the
remaining members keep the zero of `= {}` in every descriptor. -/
structure D3D11_DEPTH_STENCIL_DESC where
  DepthEnable : Bool
  DepthWriteMask : D3D11_DEPTH_WRITE_MASK
  DepthFunc : D3D11_COMPARISON_FUNC
  StencilEnable : Bool
  deriving DecidableEq, Repr

/-- Fill modes of `D3D11_FILL_MODE`; `ZERO` is the value left by `= {}`. -/
inductive D3D11_FILL_MODE
  | ZERO
  | WIREFRAME
  | SOLID
  deriving DecidableEq, Repr

/-- Cull modes of `D3D11_CULL_MODE`; `ZERO` is the value left by `= {}`. -/
inductive D3D11_CULL_MODE
  | ZERO
  | NONE
  | FRONT
  | BACK
  deriving DecidableEq, Repr

/-- All ten members of `D3D11_RASTERIZER_DESC`.  The two `float` members are only ever
assigned the literal `0.0f` and are held as the integer 0. -/
structure D3D11_RASTERIZER_DESC where
  FillMode : D3D11_FILL_MODE
  CullMode : D3D11_CULL_MODE
  FrontCounterClockwise : Bool
  DepthBias : Int
  DepthBiasClamp : Int
  SlopeScaledDepthBias : Int
  DepthClipEnable : Bool
  ScissorEnable : Bool
  MultisampleEnable : Bool
  AntialiasedLineEnable : Bool
  deriving DecidableEq, Repr

/-- A depth-stencil state object: its identity and the descriptor it was created from. -/
structure DepthStencilState where
  id : Handle
  desc : D3D11_DEPTH_STENCIL_DESC
  deriving DecidableEq, Repr

/-- A rasterizer state object: its identity and the descriptor it was created from. -/
structure RasterizerState where
  id : Handle
  desc : D3D11_RASTERIZER_DESC
  deriving DecidableEq, Repr

/-- Data members of the two application classes that the code resets, creates or passes on. -/
inductive Member
  | _device
  | _deviceContext
  | _debug
  | _dxgiFactory
  | _swapChain
  | _renderTarget
  | _depthStencilView
  | _triangleVertices
  | _shaderCollection
  | _pipeline
  | _pipelineFactory
  | _textureFactory
  | _modelFactory
  | _camera
  | _imGuiContext
  | _textureSrv
  | _linearSamplerState
  | _modelVertices
  | _modelIndices
  | _cameraConstantBuffer
  | _objectConstantBuffer
  | _depthDisabledDepthStencilState
  | _depthEnabledLessDepthStencilState
  | _depthEnabledLessEqualDepthStencilState
  | _depthEnabledAlwaysDepthStencilState
  | _depthEnabledNeverDepthStencilState
  | _depthEnabledEqualDepthStencilState
  | _depthEnabledNotEqualDepthStencilState
  | _depthEnabledGreaterDepthStencilState
  | _depthEnabledGreaterEqualDepthStencilState
  | _wireFrameCullBackRasterizerState
  | _wireFrameCullFrontRasterizerState
  | _wireFrameCullNoneRasterizerState
  | _solidFrameCullBackRasterizerState
  | _solidFrameCullFrontRasterizerState
  | _solidFrameCullNoneRasterizerState
  deriving DecidableEq, Repr

/-- One call made by the application code, with the arguments the source passes.
`width` and `height` are the `int32_t` parameters before any implicit conversion;
`float` arguments that are literals (clear colour, depth 1.0f, viewport) are not recorded. -/
inductive Call
  -- lifecycle helpers of the application classes (entry of the function)
  | Application_OnResize (width height : Int)
  | DestroySwapchainResources
  | CreateSwapchainResources
  | ApplicationWithInput_Cleanup
  -- smart-pointer releases
  | Reset (m : Member)
  | ShaderCollection_Destroy
  -- diagnostics
  | Log (stream : OStream) (message : String)
  | ReportLiveDeviceObjects
  -- swapchain and device
  | ResizeBuffers (bufferCount : Nat) (width height : Int) (format : DXGI_FORMAT) (flags : Nat)
  | GetBuffer (index : Nat)
  | CreateRenderTargetView
  | CreateTexture2D
  | CreateDepthStencilView
  | CreateDepthStencilState (desc : D3D11_DEPTH_STENCIL_DESC)
  | CreateRasterizerState (desc : D3D11_RASTERIZER_DESC)
  | CreateSamplerState
  | CreateBuffer (target : Member)
  | SetDebugName (target : Member) (name : String)
  | Present (syncInterval flags : Nat)
  -- collaborators used by Load
  | CreatePipeline
  | SetViewport
  | CreateShaderResourceViewFromFile
  | BindTexture (slot : Nat)
  | BindSampler (slot : Nat)
  | LoadModel
  | BindVertexStageConstantBuffer (slot : Nat) (buffer : Member)
  | Camera_SetPosition
  | Camera_SetDirection
  | Camera_SetUp
  -- device context (raw context in DebugLayerApplication, DeviceContext wrapper in CameraApplication)
  | Flush
  | RSSetViewports
  | IASetPrimitiveTopology
  | ShaderCollection_ApplyToContext
  | OMSetRenderTargets (renderTarget : Option Handle)
  | ClearRenderTargetView (renderTarget : Option Handle)
  | ShaderCollection_GetLayoutByteSize
  | IASetVertexBuffers (buffer : Member)
  | Draw (vertexCount startVertex : Nat)
  | UpdateSubresource (buffer : Member)
  | Clear (renderTarget depthStencilView : Option Handle)
  | SetPipeline
  | SetVertexBuffer (buffer : Member)
  | SetIndexBuffer (buffer : Member)
  | DrawIndexed
  -- pipeline object
  | SetDepthStencilState (state : Option DepthStencilState)
  | SetRasterizerState (state : Option RasterizerState)
  -- camera and Dear ImGui
  | Camera_Update
  | Camera_GetCameraConstants
  | Camera_Resize (width height : Int)
  | ImGui_GetIo
  | ImGui_SetDisplaySize (width height : Int)
  | ImGui_ImplDX11_NewFrame
  | ImGui_NewFrame
  | ImGui_Begin (name : String)
  | ImGui_Checkbox (label : String)
  | ImGui_TextUnformatted (text : String)
  | ImGui_RadioButton (label : String) (v_button : Int)
  | ImGui_End
  | ImGui_Render
  | ImGui_GetDrawData
  | ImGui_ImplDX11_RenderDrawData
  | ImGui_ImplGlfw_Shutdown
  | ImGui_DestroyContext
  -- startup
  | Application_Initialize
  | ApplicationWithInput_Initialize
  | CreateDXGIFactory1
  | D3D11CreateDevice (debugLayer : Bool)
  | QueryDebugInterface
  | SetPrivateData (name : String)
  | CreateSwapChainForHwnd (width height : Int) (format : DXGI_FORMAT) (bufferCount : Nat)
  | Construct (m : Member)
  | ImGui_CreateContext
  | ImGui_ImplGlfw_InitForOther
  | CreateShaderCollection
  -- per-frame update; `float` values are held as exact rationals
  | ApplicationWithInput_Update
  | Close
  | Camera_Move (speed : Rat)
  | Camera_Slide (speed : Rat)
  | Camera_AddYaw (degrees : Rat)
  | Camera_AddPitch (degrees : Rat)
  | XMMatrixRotationY (degrees : Rat)
  | XMStoreFloat4x4
  -- end of a destructor: the members still held are destroyed
  | MemberDestruction (released : List Member)
  deriving Repr

/-- A trace entry: the call and the swapchain-dependent views that are non-empty when it is made. -/
structure Logged where
  call : Call
  heldViews : List Member
  deriving Repr

/-- The calls of a trace, in order. -/
def callsOf (t : List Logged) : List Call := t.map Logged.call

/-- An application object together with the trace of the calls made so far. -/
structure Traced (σ : Type) where
  app : σ
  trace : List Logged

/-- Entries appended to the trace between `r` and the later `t`. -/
def callsSince {σ : Type} (r t : Traced σ) : List Logged :=
  t.trace.drop r.trace.length

/-- One window-resize event delivered to `OnResize`, with the results of the fallible
native calls made while handling it. -/
structure ResizeRequest where
  width : Int
  height : Int
  resizeOk : Bool
  hr : Nat → Bool

/-- What Dear ImGui reports during one UI frame: whether the window is open and which
widgets the user clicks.  `depthPressed v` / `cullPressed v` is the click on the radio
button whose value is `v`. -/
structure UiInput where
  beginOpen : Bool
  toggleRotationPressed : Bool
  depthPressed : Int → Bool
  wireframePressed : Bool
  cullPressed : Int → Bool

/-- Effect of `ImGui::Checkbox(label, &v)` on `v`: a click flips it. -/
def ImGui_Checkbox (pressed : Bool) (v : Bool) : Bool :=
  if pressed then !v else v

/-- Effect of `ImGui::RadioButton(label, &v, v_button)` on `v`: a click stores `v_button`. -/
def ImGui_RadioButton (pressed : Bool) (v v_button : Int) : Int :=
  if pressed then v_button else v

/-- The member `m` when its pointer `p` is non-empty, nothing when it is empty. -/
def heldMember {α : Type} (m : Member) (p : Option α) : List Member :=
  if p.isSome then [m] else []

/-! ## DebugLayerApplication -/

/-- Members of `DebugLayerApplication` used by the source file. -/
structure DebugLayerApplication where
  _device : Option Handle
  _deviceContext : Option Handle
  _debug : Option Handle
  _dxgiFactory : Option Handle
  _swapChain : Option Handle
  _renderTarget : Option Handle
  _triangleVertices : Option Handle
  _shaderCollection : Option Handle
  /-- Identity the device gives to the next object it creates. -/
  nextId : Handle

namespace DebugLayerApplication

/-- Swapchain-dependent views that are currently non-empty. -/
def heldViews (s : DebugLayerApplication) : List Member :=
  if s._renderTarget.isSome then [Member._renderTarget] else []

/-- Append a call to the trace. -/
def emit (c : Call) (r : Traced DebugLayerApplication) : Traced DebugLayerApplication :=
  { r with trace := r.trace ++ [⟨c, heldViews r.app⟩] }

/-- Assign to members of the object. -/
def assign (f : DebugLayerApplication → DebugLayerApplication)
    (r : Traced DebugLayerApplication) : Traced DebugLayerApplication :=
  { r with app := f r.app }

/-- Model of `DebugLayerApplication::CreateSwapchainResources`. -/
def CreateSwapchainResources (hr : Nat → Bool) (r : Traced DebugLayerApplication) :
    Bool × Traced DebugLayerApplication :=
  let r := emit .CreateSwapchainResources r
  let r := emit (.GetBuffer 0) r
  if hr 0 = false then
    (false, emit (.Log .cerr "D3D11: Failed to get back buffer from swapchain\n") r)
  else
    -- `&_renderTarget` releases the pointer before the call writes to it
    let r := assign (fun s => { s with _renderTarget := none }) r
    let r := emit .CreateRenderTargetView r
    if hr 1 = false then
      (false, emit (.Log .cerr "D3D11: Failed to create rendertarget view from back buffer\n") r)
    else
      (true, assign (fun s => { s with _renderTarget := some s.nextId, nextId := s.nextId + 1 }) r)

/-- Model of `DebugLayerApplication::DestroySwapchainResources`. -/
def DestroySwapchainResources (r : Traced DebugLayerApplication) : Traced DebugLayerApplication :=
  let r := emit .DestroySwapchainResources r
  let r := assign (fun s => { s with _renderTarget := none }) r
  emit (.Reset ._renderTarget) r

/-- Model of `DebugLayerApplication::OnResize`. -/
def OnResize (width height : Int) (resizeOk : Bool) (hr : Nat → Bool)
    (r : Traced DebugLayerApplication) : Traced DebugLayerApplication :=
  let r := emit (.Application_OnResize width height) r
  let r := emit .Flush r
  let r := DestroySwapchainResources r
  let r := emit (.ResizeBuffers 0 width height .B8G8R8A8_UNORM 0) r
  if resizeOk = false then
    emit (.Log .cerr "D3D11: Failed to recreate swapchain buffers\n") r
  else
    (CreateSwapchainResources hr r).2

/-- A run of `OnResize` calls, one per request, in order. -/
def resizeAll (rs : List ResizeRequest) (r : Traced DebugLayerApplication) :
    Traced DebugLayerApplication :=
  rs.foldl (fun st q => OnResize q.width q.height q.resizeOk q.hr st) r

/-- Model of `DebugLayerApplication::Render`. -/
def Render (r : Traced DebugLayerApplication) : Traced DebugLayerApplication :=
  let r := emit .RSSetViewports r
  let r := emit .IASetPrimitiveTopology r
  let r := emit .ShaderCollection_ApplyToContext r
  let r := emit (.OMSetRenderTargets none) r
  let r := emit (.ClearRenderTargetView r.app._renderTarget) r
  let r := emit (.OMSetRenderTargets r.app._renderTarget) r
  let r := emit .ShaderCollection_GetLayoutByteSize r
  let r := emit (.IASetVertexBuffers ._triangleVertices) r
  let r := emit (.Draw 3 0) r
  emit (.Present 1 0) r

/-- The owning members of the object, as far as this source file names them, that are
non-empty.  The order of the list carries no meaning. -/
def heldMembers (s : DebugLayerApplication) : List Member :=
  heldMember ._device s._device ++ heldMember ._deviceContext s._deviceContext ++
  heldMember ._debug s._debug ++ heldMember ._dxgiFactory s._dxgiFactory ++
  heldMember ._swapChain s._swapChain ++ heldMember ._renderTarget s._renderTarget ++
  heldMember ._triangleVertices s._triangleVertices ++
  heldMember ._shaderCollection s._shaderCollection

/-- What follows the body of the destructor: C++ destroys the members of the object, which
releases every owning member that the body left non-empty.  Members are destroyed in reverse
order of declaration, and the class declaration is not in this source file, so the call
records which members are released and not their order. -/
def destroyMembers (r : Traced DebugLayerApplication) : Traced DebugLayerApplication :=
  let r := emit (.MemberDestruction (heldMembers r.app)) r
  assign (fun s =>
    { s with _device := none, _deviceContext := none, _debug := none, _dxgiFactory := none,
             _swapChain := none, _renderTarget := none, _triangleVertices := none,
             _shaderCollection := none }) r

/-- The block `#if !defined(NDEBUG) ... #endif` of the destructor: absent in release builds;
otherwise `_debug->ReportLiveDeviceObjects(...)` dereferences `_debug`, which is undefined
(`none`) when the pointer is empty, and `_debug` is reset. -/
def reportLiveObjects (ndebug : Bool) (r : Traced DebugLayerApplication) :
    Option (Traced DebugLayerApplication) :=
  if ndebug then some r
  else if r.app._debug.isNone then none
  else
    let r := emit .ReportLiveDeviceObjects r
    let r := assign (fun s => { s with _debug := none }) r
    some (emit (.Reset ._debug) r)

/-- Model of `DebugLayerApplication::~DebugLayerApplication`; `ndebug` says whether the
build defines `NDEBUG`.  The first statement, `_deviceContext->Flush()`, dereferences
`_deviceContext`: with an empty pointer (an object whose `Initialize` returned before
assigning it) the behaviour is undefined and the result is `none`. -/
def destructor (ndebug : Bool) (r : Traced DebugLayerApplication) :
    Option (Traced DebugLayerApplication) :=
  if r.app._deviceContext.isNone then none
  else
  let r := emit .Flush r
  let r := assign (fun s => { s with _triangleVertices := none }) r
  let r := emit (.Reset ._triangleVertices) r
  let r := DestroySwapchainResources r
  let r := assign (fun s => { s with _swapChain := none }) r
  let r := emit (.Reset ._swapChain) r
  let r := assign (fun s => { s with _dxgiFactory := none }) r
  let r := emit (.Reset ._dxgiFactory) r
  let r := assign (fun s => { s with _shaderCollection := none }) r
  let r := emit .ShaderCollection_Destroy r
  let r := assign (fun s => { s with _deviceContext := none }) r
  let r := emit (.Reset ._deviceContext) r
  match reportLiveObjects ndebug r with
  | none => none
  | some r =>
    let r := assign (fun s => { s with _device := none }) r
    let r := emit (.Reset ._device) r
    some (destroyMembers r)

end DebugLayerApplication

/-! ## CameraApplication -/

/-- Members of `CameraApplication` used by the source file, and the state held by the
objects the file writes to (`*_pipeline`, the ImGui display size). -/
structure CameraApplication where
  _device : Option Handle
  _deviceContext : Option Handle
  _debug : Option Handle
  _dxgiFactory : Option Handle
  _swapChain : Option Handle
  _renderTarget : Option Handle
  _depthStencilView : Option Handle
  _pipeline : Option Handle
  _pipelineFactory : Option Handle
  _textureFactory : Option Handle
  _modelFactory : Option Handle
  _camera : Option Handle
  _imGuiContext : Option Handle
  _textureSrv : Option Handle
  _linearSamplerState : Option Handle
  _modelVertices : Option Handle
  _modelIndices : Option Handle
  _cameraConstantBuffer : Option Handle
  _objectConstantBuffer : Option Handle
  _depthDisabledDepthStencilState : Option DepthStencilState
  _depthEnabledLessDepthStencilState : Option DepthStencilState
  _depthEnabledLessEqualDepthStencilState : Option DepthStencilState
  _depthEnabledAlwaysDepthStencilState : Option DepthStencilState
  _depthEnabledNeverDepthStencilState : Option DepthStencilState
  _depthEnabledEqualDepthStencilState : Option DepthStencilState
  _depthEnabledNotEqualDepthStencilState : Option DepthStencilState
  _depthEnabledGreaterDepthStencilState : Option DepthStencilState
  _depthEnabledGreaterEqualDepthStencilState : Option DepthStencilState
  _wireFrameCullBackRasterizerState : Option RasterizerState
  _wireFrameCullFrontRasterizerState : Option RasterizerState
  _wireFrameCullNoneRasterizerState : Option RasterizerState
  _solidFrameCullBackRasterizerState : Option RasterizerState
  _solidFrameCullFrontRasterizerState : Option RasterizerState
  _solidFrameCullNoneRasterizerState : Option RasterizerState
  _selectedDepthFunction : Int
  _selectedRasterizerState : Int
  _isWireframe : Bool
  _toggledRotation : Bool
  /-- Depth-stencil state last handed to `_pipeline->SetDepthStencilState`. -/
  pipelineDepthStencilState : Option DepthStencilState
  /-- Rasterizer state last handed to `_pipeline->SetRasterizerState`. -/
  pipelineRasterizerState : Option RasterizerState
  /-- The `int32_t` pair last stored (after `static_cast<float>`) in `io.DisplaySize`. -/
  imGuiDisplaySize : Int × Int
  /-- Identity the device gives to the next object it creates. -/
  nextId : Handle

namespace CameraApplication

/-- Swapchain-dependent views that are currently non-empty. -/
def heldViews (s : CameraApplication) : List Member :=
  (if s._renderTarget.isSome then [Member._renderTarget] else []) ++
  (if s._depthStencilView.isSome then [Member._depthStencilView] else [])

/-- Append a call to the trace. -/
def emit (c : Call) (r : Traced CameraApplication) : Traced CameraApplication :=
  { r with trace := r.trace ++ [⟨c, heldViews r.app⟩] }

/-- Assign to members of the object. -/
def assign (f : CameraApplication → CameraApplication)
    (r : Traced CameraApplication) : Traced CameraApplication :=
  { r with app := f r.app }

/-- Model of `CameraApplication::CreateSwapchainResources`. -/
def CreateSwapchainResources (hr : Nat → Bool) (r : Traced CameraApplication) :
    Bool × Traced CameraApplication :=
  let r := emit .CreateSwapchainResources r
  let r := emit (.GetBuffer 0) r
  if hr 0 = false then
    (false, emit (.Log .cout "D3D11: Failed to get back buffer from swapchain\n") r)
  else
    -- `&_renderTarget` releases the pointer before the call writes to it
    let r := assign (fun s => { s with _renderTarget := none }) r
    let r := emit .CreateRenderTargetView r
    if hr 1 = false then
      (false, emit (.Log .cout "D3D11: Failed to create rendertarget view from back buffer\n") r)
    else
      let r := assign (fun s => { s with _renderTarget := some s.nextId, nextId := s.nextId + 1 }) r
      let r := emit .CreateTexture2D r
      if hr 2 = false then
        (false, emit (.Log .cout "D3D11: Failed to create depth buffer\n") r)
      else
        let r := assign (fun s => { s with _depthStencilView := none }) r
        let r := emit .CreateDepthStencilView r
        if hr 3 = false then
          (false,
            emit (.Log .cout "D3D11: Failed to create shaderresource view from back buffer\n") r)
        else
          (true,
            assign (fun s => { s with _depthStencilView := some s.nextId, nextId := s.nextId + 1 }) r)

/-- Model of `CameraApplication::DestroySwapchainResources`. -/
def DestroySwapchainResources (r : Traced CameraApplication) : Traced CameraApplication :=
  let r := emit .DestroySwapchainResources r
  let r := assign (fun s => { s with _depthStencilView := none }) r
  let r := emit (.Reset ._depthStencilView) r
  let r := assign (fun s => { s with _renderTarget := none }) r
  emit (.Reset ._renderTarget) r

/-- Model of `CameraApplication::OnResize`. -/
def OnResize (width height : Int) (resizeOk : Bool) (hr : Nat → Bool)
    (r : Traced CameraApplication) : Traced CameraApplication :=
  let r := emit (.Application_OnResize width height) r
  let r := emit .Flush r
  let r := DestroySwapchainResources r
  let r := emit (.ResizeBuffers 0 width height .B8G8R8A8_UNORM 0) r
  if resizeOk = false then
    emit (.Log .cout "D3D11: Failed to recreate swapchain buffers\n") r
  else
    let r := (CreateSwapchainResources hr r).2
    let r := emit (.Camera_Resize width height) r
    let r := emit .ImGui_GetIo r
    let r := assign (fun s => { s with imGuiDisplaySize := (width, height) }) r
    emit (.ImGui_SetDisplaySize width height) r

/-- A run of `OnResize` calls, one per request, in order. -/
def resizeAll (rs : List ResizeRequest) (r : Traced CameraApplication) :
    Traced CameraApplication :=
  rs.foldl (fun st q => OnResize q.width q.height q.resizeOk q.hr st) r

/-- Modelled from the spec: `Pipeline::SetDepthStencilState` (class `Pipeline` is not among
the sources) makes the given state the one bound on the pipeline object, replacing the
previously bound one. -/
def Pipeline_SetDepthStencilState (state : Option DepthStencilState)
    (r : Traced CameraApplication) : Traced CameraApplication :=
  let r := emit (.SetDepthStencilState state) r
  assign (fun s => { s with pipelineDepthStencilState := state }) r

/-- Modelled from the spec: `Pipeline::SetRasterizerState` (class `Pipeline` is not among
the sources) makes the given state the one bound on the pipeline object, replacing the
previously bound one. -/
def Pipeline_SetRasterizerState (state : Option RasterizerState)
    (r : Traced CameraApplication) : Traced CameraApplication :=
  let r := emit (.SetRasterizerState state) r
  assign (fun s => { s with pipelineRasterizerState := state }) r

/-- The call `ImGui::RadioButton(label, &_selectedDepthFunction, v_button)`. -/
def depthRadioButton (ui : UiInput) (label : String) (v_button : Int)
    (r : Traced CameraApplication) : Traced CameraApplication :=
  let r := emit (.ImGui_RadioButton label v_button) r
  assign (fun s =>
    let v := ImGui_RadioButton (ui.depthPressed v_button) s._selectedDepthFunction v_button
    { s with _selectedDepthFunction := v }) r

/-- The call `ImGui::RadioButton(label, &_selectedRasterizerState, v_button)`. -/
def cullRadioButton (ui : UiInput) (label : String) (v_button : Int)
    (r : Traced CameraApplication) : Traced CameraApplication :=
  let r := emit (.ImGui_RadioButton label v_button) r
  assign (fun s =>
    let v := ImGui_RadioButton (ui.cullPressed v_button) s._selectedRasterizerState v_button
    { s with _selectedRasterizerState := v }) r

/-- The argument of `SetDepthStencilState` in the `case` of `switch (_selectedDepthFunction)`
that matches the selection; `none` when no `case` matches. -/
def selectedDepthStencilState (s : CameraApplication) : Option (Option DepthStencilState) :=
  let i := s._selectedDepthFunction
  if i = 0 then some s._depthDisabledDepthStencilState
  else if i = 1 then some s._depthEnabledLessDepthStencilState
  else if i = 2 then some s._depthEnabledLessEqualDepthStencilState
  else if i = 3 then some s._depthEnabledGreaterDepthStencilState
  else if i = 4 then some s._depthEnabledGreaterEqualDepthStencilState
  else if i = 5 then some s._depthEnabledEqualDepthStencilState
  else if i = 6 then some s._depthEnabledNotEqualDepthStencilState
  else if i = 7 then some s._depthEnabledAlwaysDepthStencilState
  else if i = 8 then some s._depthEnabledNeverDepthStencilState
  else none

/-- The `switch (_selectedDepthFunction)` of `RenderUi`. -/
def depthSwitch (r : Traced CameraApplication) : Traced CameraApplication :=
  match selectedDepthStencilState r.app with
  | some state => Pipeline_SetDepthStencilState state r
  | none => r

/-- The argument of `SetRasterizerState` in the `case` that matches the selection, in the
`switch (_selectedRasterizerState)` chosen by `_isWireframe`; `none` when no `case` matches. -/
def selectedRasterizerState (s : CameraApplication) : Option (Option RasterizerState) :=
  let c := s._selectedRasterizerState
  if s._isWireframe then
    if c = 10 then some s._wireFrameCullFrontRasterizerState
    else if c = 11 then some s._wireFrameCullBackRasterizerState
    else if c = 12 then some s._wireFrameCullNoneRasterizerState
    else none
  else
    if c = 10 then some s._solidFrameCullFrontRasterizerState
    else if c = 11 then some s._solidFrameCullBackRasterizerState
    else if c = 12 then some s._solidFrameCullNoneRasterizerState
    else none

/-- The `if (_isWireframe)` with its two `switch (_selectedRasterizerState)` of `RenderUi`. -/
def rasterizerSwitch (r : Traced CameraApplication) : Traced CameraApplication :=
  match selectedRasterizerState r.app with
  | some state => Pipeline_SetRasterizerState state r
  | none => r

/-- The body of `if (ImGui::Begin("Hello Froge"))` in `RenderUi`. -/
def RenderUi_window (ui : UiInput) (r : Traced CameraApplication) : Traced CameraApplication :=
  let r := emit (.ImGui_Checkbox "Toggle Rotation") r
  let r := assign (fun s =>
    let v := ImGui_Checkbox ui.toggleRotationPressed s._toggledRotation
    { s with _toggledRotation := v }) r
  let r := emit (.ImGui_TextUnformatted "Depth State") r
  let r := depthRadioButton ui "Disabled" 0 r
  let r := depthRadioButton ui "Less" 1 r
  let r := depthRadioButton ui "LessEqual" 2 r
  let r := depthRadioButton ui "Greater" 3 r
  let r := depthRadioButton ui "GreaterEqual" 4 r
  let r := depthRadioButton ui "Equal" 5 r
  let r := depthRadioButton ui "NotEqual" 6 r
  let r := depthRadioButton ui "Always" 7 r
  let r := depthRadioButton ui "Never" 8 r
  let r := depthSwitch r
  let r := emit (.ImGui_TextUnformatted "Rasterizer State") r
  let r := emit (.ImGui_Checkbox "Wireframe") r
  let r := assign (fun s =>
    let v := ImGui_Checkbox ui.wireframePressed s._isWireframe
    { s with _isWireframe := v }) r
  let r := emit (.ImGui_TextUnformatted "Cull") r
  let r := cullRadioButton ui "Front" 10 r
  let r := cullRadioButton ui "Back" 11 r
  let r := cullRadioButton ui "None" 12 r
  let r := rasterizerSwitch r
  emit .ImGui_End r

/-- Model of `CameraApplication::RenderUi`. -/
def RenderUi (ui : UiInput) (r : Traced CameraApplication) : Traced CameraApplication :=
  let r := emit .ImGui_ImplDX11_NewFrame r
  let r := emit .ImGui_NewFrame r
  let r := emit (.ImGui_Begin "Hello Froge") r
  let r := if ui.beginOpen then RenderUi_window ui r else r
  let r := emit .ImGui_Render r
  let r := emit .ImGui_GetDrawData r
  emit .ImGui_ImplDX11_RenderDrawData r

/-- Model of `CameraApplication::Render`. -/
def Render (ui : UiInput) (r : Traced CameraApplication) : Traced CameraApplication :=
  let r := emit .Camera_Update r
  let r := emit .Camera_GetCameraConstants r
  let r := emit (.UpdateSubresource ._cameraConstantBuffer) r
  let r := emit (.Clear r.app._renderTarget r.app._depthStencilView) r
  let r := emit .SetPipeline r
  let r := emit (.SetVertexBuffer ._modelVertices) r
  let r := emit (.SetIndexBuffer ._modelIndices) r
  let r := emit .DrawIndexed r
  let r := RenderUi ui r
  emit (.Present 1 0) r

/-- The call `_device->CreateDepthStencilState(&desc, &member)`: on success the device hands
out a new object made from `desc`, on failure the member stays empty. -/
def CreateDepthStencilState (ok : Bool) (desc : D3D11_DEPTH_STENCIL_DESC)
    (r : Traced CameraApplication) : Option DepthStencilState × Traced CameraApplication :=
  let r := emit (.CreateDepthStencilState desc) r
  if ok then
    (some ⟨r.app.nextId, desc⟩, assign (fun s => { s with nextId := s.nextId + 1 }) r)
  else (none, r)

/-- The call `_device->CreateRasterizerState(&desc, &member)`: on success the device hands
out a new object made from `desc`, on failure the member stays empty. -/
def CreateRasterizerState (ok : Bool) (desc : D3D11_RASTERIZER_DESC)
    (r : Traced CameraApplication) : Option RasterizerState × Traced CameraApplication :=
  let r := emit (.CreateRasterizerState desc) r
  if ok then
    (some ⟨r.app.nextId, desc⟩, assign (fun s => { s with nextId := s.nextId + 1 }) r)
  else (none, r)

/-- Model of `CameraApplication::CreateDepthStencilStates`. -/
def CreateDepthStencilStates (hr : Nat → Bool) (r : Traced CameraApplication) :
    Bool × Traced CameraApplication :=
  let d : D3D11_DEPTH_STENCIL_DESC :=
    { DepthEnable := false, DepthWriteMask := .ALL, DepthFunc := .LESS, StencilEnable := false }
  let c := CreateDepthStencilState (hr 0) d r
  let r := assign (fun s => { s with _depthDisabledDepthStencilState := c.1 }) c.2
  if hr 0 = false then
    (false, emit (.Log .cout "D3D11: Failed to create disabled depth stencil state\n") r)
  else
  let d := { d with DepthEnable := true }
  let c := CreateDepthStencilState (hr 1) d r
  let r := assign (fun s => { s with _depthEnabledLessDepthStencilState := c.1 }) c.2
  if hr 1 = false then
    (false, emit (.Log .cout "D3D11: Failed to create enabled depth stencil state\n") r)
  else
  let d := { d with DepthFunc := .LESS_EQUAL }
  let c := CreateDepthStencilState (hr 2) d r
  let r := assign (fun s => { s with _depthEnabledLessEqualDepthStencilState := c.1 }) c.2
  if hr 2 = false then
    (false, emit (.Log .cout "D3D11: Failed to create enabled depth stencil state\n") r)
  else
  let d := { d with DepthFunc := .ALWAYS }
  let c := CreateDepthStencilState (hr 3) d r
  let r := assign (fun s => { s with _depthEnabledAlwaysDepthStencilState := c.1 }) c.2
  if hr 3 = false then
    (false, emit (.Log .cout "D3D11: Failed to create enabled depth stencil state\n") r)
  else
  let d := { d with DepthFunc := .NEVER }
  let c := CreateDepthStencilState (hr 4) d r
  let r := assign (fun s => { s with _depthEnabledNeverDepthStencilState := c.1 }) c.2
  if hr 4 = false then
    (false, emit (.Log .cout "D3D11: Failed to create enabled depth stencil state\n") r)
  else
  let d := { d with DepthFunc := .GREATER }
  let c := CreateDepthStencilState (hr 5) d r
  let r := assign (fun s => { s with _depthEnabledGreaterDepthStencilState := c.1 }) c.2
  if hr 5 = false then
    (false, emit (.Log .cout "D3D11: Failed to create enabled depth stencil state\n") r)
  else
  let d := { d with DepthFunc := .GREATER_EQUAL }
  let c := CreateDepthStencilState (hr 6) d r
  let r := assign (fun s => { s with _depthEnabledGreaterEqualDepthStencilState := c.1 }) c.2
  if hr 6 = false then
    (false, emit (.Log .cout "D3D11: Failed to create enabled depth stencil state\n") r)
  else
  let d := { d with DepthFunc := .EQUAL }
  let c := CreateDepthStencilState (hr 7) d r
  let r := assign (fun s => { s with _depthEnabledEqualDepthStencilState := c.1 }) c.2
  if hr 7 = false then
    (false, emit (.Log .cout "D3D11: Failed to create enabled depth stencil state\n") r)
  else
  let d := { d with DepthFunc := .NOT_EQUAL }
  let c := CreateDepthStencilState (hr 8) d r
  let r := assign (fun s => { s with _depthEnabledNotEqualDepthStencilState := c.1 }) c.2
  if hr 8 = false then
    (false, emit (.Log .cout "D3D11: Failed to create enabled depth stencil state\n") r)
  else
  (true, r)

/-- Model of `CameraApplication::CreateRasterizerStates`. -/
def CreateRasterizerStates (hr : Nat → Bool) (r : Traced CameraApplication) :
    Bool × Traced CameraApplication :=
  let d : D3D11_RASTERIZER_DESC :=
    { FillMode := .ZERO, CullMode := .ZERO, FrontCounterClockwise := true, DepthBias := 0,
      DepthBiasClamp := 0, SlopeScaledDepthBias := 0, DepthClipEnable := true,
      ScissorEnable := false, MultisampleEnable := false, AntialiasedLineEnable := false }
  let d := { d with FillMode := .SOLID }
  let d := { d with CullMode := .BACK }
  let c := CreateRasterizerState (hr 0) d r
  let r := assign (fun s => { s with _solidFrameCullBackRasterizerState := c.1 }) c.2
  if hr 0 = false then
    (false, emit (.Log .cout "D3D11: Failed to create rasterizer state\n") r)
  else
  let d := { d with CullMode := .FRONT }
  let c := CreateRasterizerState (hr 1) d r
  let r := assign (fun s => { s with _solidFrameCullFrontRasterizerState := c.1 }) c.2
  if hr 1 = false then
    (false, emit (.Log .cout "D3D11: Failed to create rasterizer state\n") r)
  else
  let d := { d with CullMode := .NONE }
  let c := CreateRasterizerState (hr 2) d r
  let r := assign (fun s => { s with _solidFrameCullNoneRasterizerState := c.1 }) c.2
  if hr 2 = false then
    (false, emit (.Log .cout "D3D11: Failed to create rasterizer state\n") r)
  else
  let d := { d with FillMode := .WIREFRAME }
  let d := { d with CullMode := .BACK }
  let c := CreateRasterizerState (hr 3) d r
  let r := assign (fun s => { s with _wireFrameCullBackRasterizerState := c.1 }) c.2
  if hr 3 = false then
    (false, emit (.Log .cout "D3D11: Failed to create rasterizer state\n") r)
  else
  let d := { d with CullMode := .FRONT }
  let c := CreateRasterizerState (hr 4) d r
  let r := assign (fun s => { s with _wireFrameCullFrontRasterizerState := c.1 }) c.2
  if hr 4 = false then
    (false, emit (.Log .cout "D3D11: Failed to create rasterizer state\n") r)
  else
  let d := { d with CullMode := .NONE }
  let c := CreateRasterizerState (hr 5) d r
  let r := assign (fun s => { s with _wireFrameCullNoneRasterizerState := c.1 }) c.2
  if hr 5 = false then
    (false, emit (.Log .cout "D3D11: Failed to create rasterizer state\n") r)
  else
  (true, r)

/-- Model of `CameraApplication::Load`.  `hr` gives the results of the six fallible calls
that `Load` makes itself (pipeline, texture, sampler, model, two constant buffers);
`hrDepth` and `hrRasterizer` those of the two state-catalog functions. -/
def Load (hr hrDepth hrRasterizer : Nat → Bool) (r : Traced CameraApplication) :
    Bool × Traced CameraApplication :=
  let r := emit .CreatePipeline r
  if hr 0 = false then
    (false, emit (.Log .cout "PipelineFactory: Failed to create pipeline\n") r)
  else
  let r := assign (fun s => { s with _pipeline := some s.nextId, nextId := s.nextId + 1 }) r
  let r := emit .SetViewport r
  let r := emit .CreateShaderResourceViewFromFile r
  if hr 1 = false then (false, r)
  else
  let r := assign (fun s => { s with _textureSrv := some s.nextId, nextId := s.nextId + 1 }) r
  let r := emit (.BindTexture 0) r
  let r := assign (fun s => { s with _linearSamplerState := none }) r
  let r := emit .CreateSamplerState r
  if hr 2 = false then
    (false, emit (.Log .cout "D3D11: Failed to create linear sampler state\n") r)
  else
  let r := assign (fun s =>
    { s with _linearSamplerState := some s.nextId, nextId := s.nextId + 1 }) r
  let r := emit (.BindSampler 0) r
  let r := emit .LoadModel r
  if hr 3 = false then (false, r)
  else
  let r := assign (fun s =>
    { s with _modelVertices := some s.nextId, _modelIndices := some (s.nextId + 1),
             nextId := s.nextId + 2 }) r
  let r := assign (fun s => { s with _cameraConstantBuffer := none }) r
  let r := emit (.CreateBuffer ._cameraConstantBuffer) r
  if hr 4 = false then
    (false, emit (.Log .cout "D3D11: Failed to create CameraConstants buffer\n") r)
  else
  let r := assign (fun s =>
    { s with _cameraConstantBuffer := some s.nextId, nextId := s.nextId + 1 }) r
  let r := emit (.SetDebugName ._cameraConstantBuffer "CB_Camera") r
  let r := assign (fun s => { s with _objectConstantBuffer := none }) r
  let r := emit (.CreateBuffer ._objectConstantBuffer) r
  if hr 5 = false then
    (false, emit (.Log .cout "D3D11: Failed to create ObjectConstants buffer\n") r)
  else
  let r := assign (fun s =>
    { s with _objectConstantBuffer := some s.nextId, nextId := s.nextId + 1 }) r
  let r := emit (.SetDebugName ._objectConstantBuffer "CB_Object") r
  let r := emit (.BindVertexStageConstantBuffer 0 ._cameraConstantBuffer) r
  let r := emit (.BindVertexStageConstantBuffer 1 ._objectConstantBuffer) r
  let c := CreateDepthStencilStates hrDepth r
  if c.1 = false then (false, c.2)
  else
  let c := CreateRasterizerStates hrRasterizer c.2
  if c.1 = false then (false, c.2)
  else
  let r := emit .Camera_SetPosition c.2
  let r := emit .Camera_SetDirection r
  let r := emit .Camera_SetUp r
  (true, r)

/-- The owning members of the object, as far as this source file names them, that are
non-empty (`_imGuiContext` is a raw pointer and owns nothing).  The order of the list carries
no meaning. -/
def heldMembers (s : CameraApplication) : List Member :=
  heldMember ._device s._device ++ heldMember ._deviceContext s._deviceContext ++
  heldMember ._debug s._debug ++ heldMember ._dxgiFactory s._dxgiFactory ++
  heldMember ._swapChain s._swapChain ++ heldMember ._renderTarget s._renderTarget ++
  heldMember ._depthStencilView s._depthStencilView ++ heldMember ._pipeline s._pipeline ++
  heldMember ._pipelineFactory s._pipelineFactory ++
  heldMember ._textureFactory s._textureFactory ++ heldMember ._modelFactory s._modelFactory ++
  heldMember ._camera s._camera ++ heldMember ._textureSrv s._textureSrv ++
  heldMember ._linearSamplerState s._linearSamplerState ++
  heldMember ._modelVertices s._modelVertices ++ heldMember ._modelIndices s._modelIndices ++
  heldMember ._cameraConstantBuffer s._cameraConstantBuffer ++
  heldMember ._objectConstantBuffer s._objectConstantBuffer ++
  heldMember ._depthDisabledDepthStencilState s._depthDisabledDepthStencilState ++
  heldMember ._depthEnabledLessDepthStencilState s._depthEnabledLessDepthStencilState ++
  heldMember ._depthEnabledLessEqualDepthStencilState s._depthEnabledLessEqualDepthStencilState ++
  heldMember ._depthEnabledAlwaysDepthStencilState s._depthEnabledAlwaysDepthStencilState ++
  heldMember ._depthEnabledNeverDepthStencilState s._depthEnabledNeverDepthStencilState ++
  heldMember ._depthEnabledEqualDepthStencilState s._depthEnabledEqualDepthStencilState ++
  heldMember ._depthEnabledNotEqualDepthStencilState s._depthEnabledNotEqualDepthStencilState ++
  heldMember ._depthEnabledGreaterDepthStencilState s._depthEnabledGreaterDepthStencilState ++
  heldMember ._depthEnabledGreaterEqualDepthStencilState
    s._depthEnabledGreaterEqualDepthStencilState ++
  heldMember ._wireFrameCullBackRasterizerState s._wireFrameCullBackRasterizerState ++
  heldMember ._wireFrameCullFrontRasterizerState s._wireFrameCullFrontRasterizerState ++
  heldMember ._wireFrameCullNoneRasterizerState s._wireFrameCullNoneRasterizerState ++
  heldMember ._solidFrameCullBackRasterizerState s._solidFrameCullBackRasterizerState ++
  heldMember ._solidFrameCullFrontRasterizerState s._solidFrameCullFrontRasterizerState ++
  heldMember ._solidFrameCullNoneRasterizerState s._solidFrameCullNoneRasterizerState

/-- What follows the body of the destructor: C++ destroys the members of the object, which
releases every owning member that the body left non-empty.  Members are destroyed in reverse
order of declaration, and the class declaration is not in this source file, so the call
records which members are released and not their order. -/
def destroyMembers (r : Traced CameraApplication) : Traced CameraApplication :=
  let r := emit (.MemberDestruction (heldMembers r.app)) r
  assign (fun s =>
    { s with _device := none, _deviceContext := none, _debug := none, _dxgiFactory := none,
             _swapChain := none, _renderTarget := none, _depthStencilView := none,
             _pipeline := none, _pipelineFactory := none, _textureFactory := none,
             _modelFactory := none, _camera := none, _textureSrv := none,
             _linearSamplerState := none, _modelVertices := none, _modelIndices := none,
             _cameraConstantBuffer := none, _objectConstantBuffer := none,
             _depthDisabledDepthStencilState := none,
             _depthEnabledLessDepthStencilState := none,
             _depthEnabledLessEqualDepthStencilState := none,
             _depthEnabledAlwaysDepthStencilState := none,
             _depthEnabledNeverDepthStencilState := none,
             _depthEnabledEqualDepthStencilState := none,
             _depthEnabledNotEqualDepthStencilState := none,
             _depthEnabledGreaterDepthStencilState := none,
             _depthEnabledGreaterEqualDepthStencilState := none,
             _wireFrameCullBackRasterizerState := none,
             _wireFrameCullFrontRasterizerState := none,
             _wireFrameCullNoneRasterizerState := none,
             _solidFrameCullBackRasterizerState := none,
             _solidFrameCullFrontRasterizerState := none,
             _solidFrameCullNoneRasterizerState := none }) r

/-- The block `#if !defined(NDEBUG) ... #endif` of the destructor: absent in release builds;
otherwise `_debug->ReportLiveDeviceObjects(...)` dereferences `_debug`, which is undefined
(`none`) when the pointer is empty, and `_debug` is reset. -/
def reportLiveObjects (ndebug : Bool) (r : Traced CameraApplication) :
    Option (Traced CameraApplication) :=
  if ndebug then some r
  else if r.app._debug.isNone then none
  else
    let r := emit .ReportLiveDeviceObjects r
    let r := assign (fun s => { s with _debug := none }) r
    some (emit (.Reset ._debug) r)

/-- Model of `CameraApplication::~CameraApplication`; `ndebug` says whether the build
defines `NDEBUG`.  The first statement, `_deviceContext->Flush()`, dereferences
`_deviceContext`: with an empty pointer (an object whose `Initialize` returned before
creating the `DeviceContext`) the behaviour is undefined and the result is `none`. -/
def destructor (ndebug : Bool) (r : Traced CameraApplication) :
    Option (Traced CameraApplication) :=
  if r.app._deviceContext.isNone then none
  else
  let r := emit .Flush r
  let r := assign (fun s => { s with _depthDisabledDepthStencilState := none }) r
  let r := emit (.Reset ._depthDisabledDepthStencilState) r
  let r := assign (fun s => { s with _depthEnabledLessDepthStencilState := none }) r
  let r := emit (.Reset ._depthEnabledLessDepthStencilState) r
  let r := assign (fun s => { s with _depthEnabledLessEqualDepthStencilState := none }) r
  let r := emit (.Reset ._depthEnabledLessEqualDepthStencilState) r
  let r := assign (fun s => { s with _depthEnabledAlwaysDepthStencilState := none }) r
  let r := emit (.Reset ._depthEnabledAlwaysDepthStencilState) r
  let r := assign (fun s => { s with _depthEnabledNeverDepthStencilState := none }) r
  let r := emit (.Reset ._depthEnabledNeverDepthStencilState) r
  let r := assign (fun s => { s with _depthEnabledEqualDepthStencilState := none }) r
  let r := emit (.Reset ._depthEnabledEqualDepthStencilState) r
  let r := assign (fun s => { s with _depthEnabledNotEqualDepthStencilState := none }) r
  let r := emit (.Reset ._depthEnabledNotEqualDepthStencilState) r
  let r := assign (fun s => { s with _depthEnabledGreaterDepthStencilState := none }) r
  let r := emit (.Reset ._depthEnabledGreaterDepthStencilState) r
  let r := assign (fun s => { s with _depthEnabledGreaterEqualDepthStencilState := none }) r
  let r := emit (.Reset ._depthEnabledGreaterEqualDepthStencilState) r
  let r := assign (fun s => { s with _wireFrameCullBackRasterizerState := none }) r
  let r := emit (.Reset ._wireFrameCullBackRasterizerState) r
  let r := assign (fun s => { s with _wireFrameCullFrontRasterizerState := none }) r
  let r := emit (.Reset ._wireFrameCullFrontRasterizerState) r
  let r := assign (fun s => { s with _wireFrameCullNoneRasterizerState := none }) r
  let r := emit (.Reset ._wireFrameCullNoneRasterizerState) r
  let r := assign (fun s => { s with _solidFrameCullBackRasterizerState := none }) r
  let r := emit (.Reset ._solidFrameCullBackRasterizerState) r
  let r := assign (fun s => { s with _solidFrameCullFrontRasterizerState := none }) r
  let r := emit (.Reset ._solidFrameCullFrontRasterizerState) r
  let r := assign (fun s => { s with _solidFrameCullNoneRasterizerState := none }) r
  let r := emit (.Reset ._solidFrameCullNoneRasterizerState) r
  let r := assign (fun s => { s with _depthStencilView := none }) r
  let r := emit (.Reset ._depthStencilView) r
  let r := assign (fun s => { s with _cameraConstantBuffer := none }) r
  let r := emit (.Reset ._cameraConstantBuffer) r
  let r := assign (fun s => { s with _textureSrv := none }) r
  let r := emit (.Reset ._textureSrv) r
  let r := assign (fun s => { s with _pipeline := none }) r
  let r := emit (.Reset ._pipeline) r
  let r := assign (fun s => { s with _pipelineFactory := none }) r
  let r := emit (.Reset ._pipelineFactory) r
  let r := assign (fun s => { s with _modelVertices := none }) r
  let r := emit (.Reset ._modelVertices) r
  let r := assign (fun s => { s with _modelIndices := none }) r
  let r := emit (.Reset ._modelIndices) r
  let r := assign (fun s => { s with _modelFactory := none }) r
  let r := emit (.Reset ._modelFactory) r
  let r := DestroySwapchainResources r
  let r := assign (fun s => { s with _swapChain := none }) r
  let r := emit (.Reset ._swapChain) r
  let r := assign (fun s => { s with _dxgiFactory := none }) r
  let r := emit (.Reset ._dxgiFactory) r
  let r := assign (fun s => { s with _deviceContext := none }) r
  let r := emit (.Reset ._deviceContext) r
  match reportLiveObjects ndebug r with
  | none => none
  | some r =>
    let r := assign (fun s => { s with _device := none }) r
    let r := emit (.Reset ._device) r
    let r := emit .ImGui_ImplGlfw_Shutdown r
    let r := emit .ImGui_DestroyContext r
    let r := emit .ApplicationWithInput_Cleanup r
    some (destroyMembers r)

end CameraApplication

/-! ## Reading a trace -/

/-- Entry of `DestroySwapchainResources`. -/
def Call.isDestroySwapchainResources : Call → Bool
  | .DestroySwapchainResources => true
  | _ => false

/-- Entry of `CreateSwapchainResources`. -/
def Call.isCreateSwapchainResources : Call → Bool
  | .CreateSwapchainResources => true
  | _ => false

/-- A call of `IDXGISwapChain::ResizeBuffers`. -/
def Call.isResizeBuffers : Call → Bool
  | .ResizeBuffers _ _ _ _ _ => true
  | _ => false

/-- A diagnostic written to either stream. -/
def Call.isLog : Call → Bool
  | .Log _ _ => true
  | _ => false

/-- Notification of a dependent of the swapchain size: the camera or the ImGui display size. -/
def Call.isNotify : Call → Bool
  | .Camera_Resize _ _ => true
  | .ImGui_SetDisplaySize _ _ => true
  | _ => false

/-- The steps of `OnResize` that the resize contract orders. -/
def Call.isResizeStep : Call → Bool
  | .Flush => true
  | .DestroySwapchainResources => true
  | .ResizeBuffers _ _ _ _ _ => true
  | .CreateSwapchainResources => true
  | .Camera_Resize _ _ => true
  | .ImGui_SetDisplaySize _ _ => true
  | _ => false

/-- The ordered steps of a trace, without the calls made in between. -/
def resizeSteps (t : List Logged) : List Call := (callsOf t).filter Call.isResizeStep

/-- Number of `DestroySwapchainResources` calls in a trace. -/
def destroyCount (t : List Logged) : Nat := (callsOf t).countP Call.isDestroySwapchainResources

/-- Number of `CreateSwapchainResources` calls in a trace. -/
def createCount (t : List Logged) : Nat := (callsOf t).countP Call.isCreateSwapchainResources

/-- Number of resize requests whose `ResizeBuffers` succeeds. -/
def succeededCount (rs : List ResizeRequest) : Nat := rs.countP (fun r => r.resizeOk)

/-- Number of diagnostics written in a trace. -/
def logCount (t : List Logged) : Nat := (callsOf t).countP Call.isLog

/-- Number of `ResizeBuffers` calls in a trace. -/
def resizeBuffersCount (t : List Logged) : Nat := (callsOf t).countP Call.isResizeBuffers

/-- Number of notifications of size dependents (camera, ImGui display size) in a trace. -/
def notifyCount (t : List Logged) : Nat := (callsOf t).countP Call.isNotify

/-- A call of `ID3D11Device::CreateDepthStencilState`. -/
def Call.isCreateDepthStencilState : Call → Bool
  | .CreateDepthStencilState _ => true
  | _ => false

/-- A call of `ID3D11Device::CreateRasterizerState`. -/
def Call.isCreateRasterizerState : Call → Bool
  | .CreateRasterizerState _ => true
  | _ => false

/-- Number of depth-stencil state creations attempted in a trace. -/
def depthCreateCount (t : List Logged) : Nat :=
  (callsOf t).countP Call.isCreateDepthStencilState

/-- Number of rasterizer state creations attempted in a trace. -/
def rasterizerCreateCount (t : List Logged) : Nat :=
  (callsOf t).countP Call.isCreateRasterizerState

/-- The first `n` fallible calls all succeed. -/
def allOk (hr : Nat → Bool) (n : Nat) : Bool := (List.range n).all hr

/-- A clear of the render target (and depth buffer). -/
def Call.isClear : Call → Bool
  | .Clear _ _ => true
  | .ClearRenderTargetView _ => true
  | _ => false

/-- A bind of the pipeline or of the shaders on the device context. -/
def Call.isShaderBind : Call → Bool
  | .SetPipeline => true
  | .ShaderCollection_ApplyToContext => true
  | _ => false

/-- A bind of a vertex or index buffer on the device context. -/
def Call.isBufferBind : Call → Bool
  | .SetVertexBuffer _ => true
  | .SetIndexBuffer _ => true
  | .IASetVertexBuffers _ => true
  | _ => false

/-- A pipeline/shader bind or a vertex/index buffer bind. -/
def Call.isBind (c : Call) : Bool := c.isShaderBind || c.isBufferBind

/-- The draw call of the 3D scene. -/
def Call.isDraw : Call → Bool
  | .DrawIndexed => true
  | .Draw _ _ => true
  | _ => false

/-- The draw of the debug overlay. -/
def Call.isOverlayDraw : Call → Bool
  | .ImGui_ImplDX11_RenderDrawData => true
  | _ => false

/-- A call of `IDXGISwapChain::Present`. -/
def Call.isPresent : Call → Bool
  | .Present _ _ => true
  | _ => false

/-- Every call of kind `p` comes before every call of kind `q`: no `q` call is followed by
a `p` call. -/
def Precedes (p q : Call → Bool) (l : List Call) : Prop :=
  l.Pairwise (fun a b => ¬ (q a = true ∧ p b = true))

instance (p q : Call → Bool) (l : List Call) : Decidable (Precedes p q l) := by
  unfold Precedes
  infer_instance

/-- The frame order clear → bind → draw → present: one clear, one draw and one present
occur, the clear precedes every bind, every bind precedes the draw, and the draw precedes
the present. -/
def clearBindDrawPresent (l : List Call) : Prop :=
  l.countP Call.isClear = 1 ∧ l.countP Call.isDraw = 1 ∧ l.countP Call.isPresent = 1 ∧
  Precedes Call.isClear Call.isBind l ∧ Precedes Call.isBind Call.isDraw l ∧
  Precedes Call.isDraw Call.isPresent l

instance (l : List Call) : Decidable (clearBindDrawPresent l) := by
  unfold clearBindDrawPresent
  infer_instance

/-- The calls of a frame that the frame order speaks about: clears, binds, the scene draw,
the overlay draw and the present. -/
def Call.isFrameStep (c : Call) : Bool :=
  c.isClear || c.isBind || c.isDraw || c.isOverlayDraw || c.isPresent

/-- The frame steps of a list of calls, in order. -/
def frameSteps (l : List Call) : List Call := l.filter Call.isFrameStep

/-- Stage of the documented shutdown order that a release belongs to: 1 swapchain-dependent
views, 2 buffers, 3 swapchain, 4 DXGI factory, 5 pipeline/shader objects, 6 device context,
7 debug-layer live-object report, 8 device.  `none` for calls the order does not name. -/
def shutdownStage : Call → Option Nat
  | .Reset ._renderTarget => some 1
  | .Reset ._depthStencilView => some 1
  | .Reset ._triangleVertices => some 2
  | .Reset ._modelVertices => some 2
  | .Reset ._modelIndices => some 2
  | .Reset ._cameraConstantBuffer => some 2
  | .Reset ._objectConstantBuffer => some 2
  | .Reset ._swapChain => some 3
  | .Reset ._dxgiFactory => some 4
  | .ShaderCollection_Destroy => some 5
  | .Reset ._pipeline => some 5
  | .Reset ._deviceContext => some 6
  | .ReportLiveDeviceObjects => some 7
  | .Reset ._device => some 8
  | _ => none

/-- The first call of the list is the flush of the device context. -/
def startsWithFlush : List Call → Bool
  | .Flush :: _ => true
  | _ => false

/-- The stages of the releases in a list of calls, in call order. -/
def shutdownStages (l : List Call) : List Nat := l.filterMap shutdownStage

/-- The documented shutdown order: the flush comes first and the releases follow the
stages views → buffers → swapchain → factory → pipeline objects → context → report → device,
with the device released. -/
def shutdownOrder (l : List Call) : Prop :=
  startsWithFlush l = true ∧ (shutdownStages l).Pairwise (fun a b => a ≤ b) ∧
  (shutdownStages l).getLast? = some 8

instance (l : List Call) : Decidable (shutdownOrder l) := by
  unfold shutdownOrder
  infer_instance

/-- Every `ResizeBuffers` call in the trace is made while no swapchain-dependent view is held. -/
def resizeWithViewsEmpty (t : List Logged) : Prop :=
  ∀ e ∈ t, e.call.isResizeBuffers = true → e.heldViews = []

end LearnD3D11

namespace LearnD3D11

namespace CameraApplication

/-! ## Straight-line description of `RenderUi`

The functions below list, for a UI input and the members on entry, the calls `RenderUi`
makes and the members it leaves; `RenderUi_trace` and `RenderUi_app` prove that they agree
with the model. -/

/-- Value of `_selectedDepthFunction` after the nine depth radio buttons. -/
def depthSelectionAtSwitch (ui : UiInput) (v : Int) : Int :=
  let v := ImGui_RadioButton (ui.depthPressed 0) v 0
  let v := ImGui_RadioButton (ui.depthPressed 1) v 1
  let v := ImGui_RadioButton (ui.depthPressed 2) v 2
  let v := ImGui_RadioButton (ui.depthPressed 3) v 3
  let v := ImGui_RadioButton (ui.depthPressed 4) v 4
  let v := ImGui_RadioButton (ui.depthPressed 5) v 5
  let v := ImGui_RadioButton (ui.depthPressed 6) v 6
  let v := ImGui_RadioButton (ui.depthPressed 7) v 7
  ImGui_RadioButton (ui.depthPressed 8) v 8

/-- Value of `_selectedRasterizerState` after the three cull radio buttons. -/
def cullSelectionAtSwitch (ui : UiInput) (v : Int) : Int :=
  let v := ImGui_RadioButton (ui.cullPressed 10) v 10
  let v := ImGui_RadioButton (ui.cullPressed 11) v 11
  ImGui_RadioButton (ui.cullPressed 12) v 12

/-- Members when `switch (_selectedDepthFunction)` runs. -/
def atDepthSwitch (ui : UiInput) (s : CameraApplication) : CameraApplication :=
  { s with
    _toggledRotation := ImGui_Checkbox ui.toggleRotationPressed s._toggledRotation,
    _selectedDepthFunction := depthSelectionAtSwitch ui s._selectedDepthFunction }

/-- Members when the rasterizer `switch` runs. -/
def atRasterizerSwitch (ui : UiInput) (s : CameraApplication) : CameraApplication :=
  { atDepthSwitch ui s with
    pipelineDepthStencilState :=
      (selectedDepthStencilState (atDepthSwitch ui s)).getD s.pipelineDepthStencilState,
    _isWireframe := ImGui_Checkbox ui.wireframePressed s._isWireframe,
    _selectedRasterizerState := cullSelectionAtSwitch ui s._selectedRasterizerState }

/-- Members when the window body of `RenderUi` ends. -/
def afterWindow (ui : UiInput) (s : CameraApplication) : CameraApplication :=
  { atRasterizerSwitch ui s with
    pipelineRasterizerState :=
      (selectedRasterizerState (atRasterizerSwitch ui s)).getD s.pipelineRasterizerState }

/-- Calls made by the window body of `RenderUi`. -/
def windowCalls (ui : UiInput) (s : CameraApplication) : List Call :=
  [Call.ImGui_Checkbox "Toggle Rotation", Call.ImGui_TextUnformatted "Depth State",
    Call.ImGui_RadioButton "Disabled" 0, Call.ImGui_RadioButton "Less" 1,
    Call.ImGui_RadioButton "LessEqual" 2, Call.ImGui_RadioButton "Greater" 3,
    Call.ImGui_RadioButton "GreaterEqual" 4, Call.ImGui_RadioButton "Equal" 5,
    Call.ImGui_RadioButton "NotEqual" 6, Call.ImGui_RadioButton "Always" 7,
    Call.ImGui_RadioButton "Never" 8] ++
  (selectedDepthStencilState (atDepthSwitch ui s)).toList.map Call.SetDepthStencilState ++
  [Call.ImGui_TextUnformatted "Rasterizer State", Call.ImGui_Checkbox "Wireframe",
    Call.ImGui_TextUnformatted "Cull", Call.ImGui_RadioButton "Front" 10,
    Call.ImGui_RadioButton "Back" 11, Call.ImGui_RadioButton "None" 12] ++
  (selectedRasterizerState (atRasterizerSwitch ui s)).toList.map Call.SetRasterizerState ++
  [Call.ImGui_End]

/-- Calls made by `RenderUi`. -/
def uiCalls (ui : UiInput) (s : CameraApplication) : List Call :=
  [Call.ImGui_ImplDX11_NewFrame, Call.ImGui_NewFrame, Call.ImGui_Begin "Hello Froge"] ++
  (if ui.beginOpen then windowCalls ui s else []) ++
  [Call.ImGui_Render, Call.ImGui_GetDrawData, Call.ImGui_ImplDX11_RenderDrawData]

/-- Calls made by `Render`. -/
def renderCalls (ui : UiInput) (s : CameraApplication) : List Call :=
  [Call.Camera_Update, Call.Camera_GetCameraConstants,
    Call.UpdateSubresource Member._cameraConstantBuffer,
    Call.Clear s._renderTarget s._depthStencilView, Call.SetPipeline,
    Call.SetVertexBuffer Member._modelVertices, Call.SetIndexBuffer Member._modelIndices,
    Call.DrawIndexed] ++
  uiCalls ui s ++ [Call.Present 1 0]

/-- The nine depth-stencil state members, in declaration order of the destructor. -/
def depthCatalog (s : CameraApplication) : List (Option DepthStencilState) :=
  [s._depthDisabledDepthStencilState, s._depthEnabledLessDepthStencilState,
    s._depthEnabledLessEqualDepthStencilState, s._depthEnabledAlwaysDepthStencilState,
    s._depthEnabledNeverDepthStencilState, s._depthEnabledEqualDepthStencilState,
    s._depthEnabledNotEqualDepthStencilState, s._depthEnabledGreaterDepthStencilState,
    s._depthEnabledGreaterEqualDepthStencilState]

/-- The six rasterizer state members, in declaration order of the destructor. -/
def rasterizerCatalog (s : CameraApplication) : List (Option RasterizerState) :=
  [s._wireFrameCullBackRasterizerState, s._wireFrameCullFrontRasterizerState,
    s._wireFrameCullNoneRasterizerState, s._solidFrameCullBackRasterizerState,
    s._solidFrameCullFrontRasterizerState, s._solidFrameCullNoneRasterizerState]

end CameraApplication

/-! ## The selection tables as the UI labels state them -/

/-- Comparison function named by the label of the depth radio button with value `i`:
1 Less, 2 LessEqual, 3 Greater, 4 GreaterEqual, 5 Equal, 6 NotEqual, 7 Always, 8 Never. -/
def labelledDepthFunc (i : Int) : D3D11_COMPARISON_FUNC :=
  if i = 1 then .LESS
  else if i = 2 then .LESS_EQUAL
  else if i = 3 then .GREATER
  else if i = 4 then .GREATER_EQUAL
  else if i = 5 then .EQUAL
  else if i = 6 then .NOT_EQUAL
  else if i = 7 then .ALWAYS
  else if i = 8 then .NEVER
  else .ZERO

/-- Cull mode named by the label of the cull radio button with value `c`:
10 Front, 11 Back, 12 None. -/
def labelledCullMode (c : Int) : D3D11_CULL_MODE :=
  if c = 10 then .FRONT
  else if c = 11 then .BACK
  else if c = 12 then .NONE
  else .ZERO

/-- Fill mode named by the "Wireframe" checkbox. -/
def labelledFillMode (wireframe : Bool) : D3D11_FILL_MODE :=
  if wireframe then .WIREFRAME else .SOLID

/-- Position, in creation order, of the depth-stencil state that the depth radio button
with value `i` selects. -/
def depthCreationOrder (i : Int) : Nat :=
  if i = 0 then 0
  else if i = 1 then 1
  else if i = 2 then 2
  else if i = 7 then 3
  else if i = 8 then 4
  else if i = 3 then 5
  else if i = 4 then 6
  else if i = 5 then 7
  else 8

/-- Position, in creation order, of the rasterizer state selected by the wireframe flag and
the cull radio button with value `c`. -/
def rasterizerCreationOrder (wireframe : Bool) (c : Int) : Nat :=
  (if wireframe then 3 else 0) + (if c = 11 then 0 else if c = 10 then 1 else 2)

/-- The depth-stencil state object selected by index `i`, when the catalog was created by
a device whose next identity was `base`. -/
def depthStateTable (base : Handle) (i : Int) : DepthStencilState :=
  { id := base + depthCreationOrder i,
    desc :=
      { DepthEnable := decide (i ≠ 0), DepthWriteMask := .ALL,
        DepthFunc := if i = 0 then .LESS else labelledDepthFunc i, StencilEnable := false } }

/-- The rasterizer state object selected by the wireframe flag and index `c`, when the
catalog was created by a device whose next identity was `base`. -/
def rasterizerStateTable (base : Handle) (wireframe : Bool) (c : Int) : RasterizerState :=
  { id := base + rasterizerCreationOrder wireframe c,
    desc :=
      { FillMode := labelledFillMode wireframe, CullMode := labelledCullMode c,
        FrontCounterClockwise := true, DepthBias := 0, DepthBiasClamp := 0,
        SlopeScaledDepthBias := 0, DepthClipEnable := true, ScissorEnable := false,
        MultisampleEnable := false, AntialiasedLineEnable := false } }

/-- The depth-stencil states handed to `SetDepthStencilState`, in call order. -/
def depthBindsOf (calls : List Call) : List (Option DepthStencilState) :=
  calls.filterMap (fun c => match c with
    | .SetDepthStencilState st => some st
    | _ => none)

/-- The rasterizer states handed to `SetRasterizerState`, in call order. -/
def rasterizerBindsOf (calls : List Call) : List (Option RasterizerState) :=
  calls.filterMap (fun c => match c with
    | .SetRasterizerState st => some st
    | _ => none)

/-- The depth-stencil states handed to `SetDepthStencilState` in a trace. -/
def depthBinds (t : List Logged) : List (Option DepthStencilState) := depthBindsOf (callsOf t)

/-- The rasterizer states handed to `SetRasterizerState` in a trace. -/
def rasterizerBinds (t : List Logged) : List (Option RasterizerState) :=
  rasterizerBindsOf (callsOf t)

/-- Stamp calls with the views held while they are made. -/
def stamp (held : List Member) (calls : List Call) : List Logged :=
  calls.map (fun c => ⟨c, held⟩)

end LearnD3D11

namespace LearnD3D11

/-! ## Concrete applications -/

/-- A `DebugLayerApplication` as it stands after a successful `Initialize` and `Load`:
every member holds an object and nothing has been traced yet. -/
def DebugLayerApplication.running : Traced DebugLayerApplication :=
  { app :=
      { _device := some 0, _deviceContext := some 1, _debug := some 2, _dxgiFactory := some 3,
        _swapChain := some 4, _renderTarget := some 5, _triangleVertices := some 6,
        _shaderCollection := some 7, nextId := 8 },
    trace := [] }

/-- A `CameraApplication` as it stands after `Initialize` and before `Load`: the device
objects and the swapchain views exist, the state catalog is still empty. -/
def CameraApplication.initialized : Traced CameraApplication :=
  { app :=
      { _device := some 0, _deviceContext := some 1, _debug := some 2, _dxgiFactory := some 3,
        _swapChain := some 4, _renderTarget := some 5, _depthStencilView := some 6,
        _pipeline := none, _pipelineFactory := some 7, _textureFactory := some 8,
        _modelFactory := some 9, _camera := some 10, _imGuiContext := some 11,
        _textureSrv := none, _linearSamplerState := none, _modelVertices := none,
        _modelIndices := none, _cameraConstantBuffer := none, _objectConstantBuffer := none,
        _depthDisabledDepthStencilState := none, _depthEnabledLessDepthStencilState := none,
        _depthEnabledLessEqualDepthStencilState := none,
        _depthEnabledAlwaysDepthStencilState := none,
        _depthEnabledNeverDepthStencilState := none,
        _depthEnabledEqualDepthStencilState := none,
        _depthEnabledNotEqualDepthStencilState := none,
        _depthEnabledGreaterDepthStencilState := none,
        _depthEnabledGreaterEqualDepthStencilState := none,
        _wireFrameCullBackRasterizerState := none, _wireFrameCullFrontRasterizerState := none,
        _wireFrameCullNoneRasterizerState := none, _solidFrameCullBackRasterizerState := none,
        _solidFrameCullFrontRasterizerState := none,
        _solidFrameCullNoneRasterizerState := none,
        _selectedDepthFunction := 1, _selectedRasterizerState := 11, _isWireframe := false,
        _toggledRotation := false, pipelineDepthStencilState := none,
        pipelineRasterizerState := none, imGuiDisplaySize := (1280, 720), nextId := 12 },
    trace := [] }

/-- The initialized application after both state-catalog functions ran with every creation
succeeding, with an empty trace. -/
def CameraApplication.loaded : Traced CameraApplication :=
  { app := (CameraApplication.CreateRasterizerStates (fun _ => true)
      (CameraApplication.CreateDepthStencilStates (fun _ => true)
        CameraApplication.initialized).2).2.app,
    trace := [] }

/-- A `CameraApplication` as it stands after `Initialize` and a `Load` in which every call
succeeded, with an empty trace. -/
def CameraApplication.running : Traced CameraApplication :=
  { app := (CameraApplication.Load (fun _ => true) (fun _ => true) (fun _ => true)
      CameraApplication.initialized).2.app,
    trace := [] }

/-- The loaded application with the given selection members. -/
def CameraApplication.loadedWith (depth cull : Int) (wireframe : Bool) :
    Traced CameraApplication :=
  CameraApplication.assign (fun s =>
    { s with _selectedDepthFunction := depth, _selectedRasterizerState := cull,
             _isWireframe := wireframe }) CameraApplication.loaded

/-- A UI frame in which the window is open and nothing is clicked. -/
def UiInput.idle : UiInput :=
  { beginOpen := true, toggleRotationPressed := false, depthPressed := fun _ => false,
    wireframePressed := false, cullPressed := fun _ => false }

end LearnD3D11

namespace LearnD3D11

/-! ## Startup and per-frame update -/

/-- Keyboard and mouse state read by `CameraApplication::Update`; `deltaX`, `deltaY` are the
components of `DeltaPosition`, held as exact rationals. -/
structure UpdateInput where
  escapeDown : Bool
  wPressed : Bool
  sPressed : Bool
  aPressed : Bool
  dPressed : Bool
  button1Pressed : Bool
  deltaX : Rat
  deltaY : Rat

namespace DebugLayerApplication

/-- The block `#if !defined(NDEBUG) ... _device.As(&_debug) ... #endif` of `Initialize`:
absent in release builds; otherwise it queries the debug layer and fails when the query
does. -/
def queryDebugLayer (ndebug ok : Bool) (r : Traced DebugLayerApplication) :
    Bool × Traced DebugLayerApplication :=
  if ndebug then (true, r)
  else
    let r := assign (fun s => { s with _debug := none }) r
    let r := emit .QueryDebugInterface r
    if ok = false then
      (false, emit (.Log .cerr "D3D11: Failed to get the debug layer from the device\n") r)
    else
      (true, assign (fun s => { s with _debug := some s.nextId, nextId := s.nextId + 1 }) r)

/-- Model of `DebugLayerApplication::Initialize`.  `baseOk` is the result of
`Application::Initialize`; `hr 0 .. hr 3` are the results of `CreateDXGIFactory1`,
`D3D11CreateDevice`, the debug-layer query and `CreateSwapChainForHwnd`; `hrSwap` gives the
results of the calls made inside `CreateSwapchainResources`. -/
def Initialize (ndebug baseOk : Bool) (windowWidth windowHeight : Int)
    (hr hrSwap : Nat → Bool) (r : Traced DebugLayerApplication) :
    Bool × Traced DebugLayerApplication :=
  let r := emit .Application_Initialize r
  if baseOk = false then (false, r)
  else
  let r := assign (fun s => { s with _dxgiFactory := none }) r
  let r := emit .CreateDXGIFactory1 r
  if hr 0 = false then
    (false, emit (.Log .cerr "DXGI: Failed to create factory\n") r)
  else
  let r := assign (fun s => { s with _dxgiFactory := some s.nextId, nextId := s.nextId + 1 }) r
  let r := assign (fun s => { s with _device := none }) r
  let r := emit (.D3D11CreateDevice (!ndebug)) r
  if hr 1 = false then
    (false, emit (.Log .cerr "D3D11: Failed to create device and device context\n") r)
  else
  -- the device takes `nextId`, the local `deviceContext` takes `nextId + 1`
  let deviceContext := r.app.nextId + 1
  let r := assign (fun s => { s with _device := some s.nextId, nextId := s.nextId + 2 }) r
  let q := queryDebugLayer ndebug (hr 2) r
  if q.1 = false then (false, q.2)
  else
  let r := assign (fun s => { s with _deviceContext := some deviceContext }) q.2
  let r := assign (fun s => { s with _swapChain := none }) r
  let r := emit (.CreateSwapChainForHwnd windowWidth windowHeight .B8G8R8A8_UNORM 2) r
  if hr 3 = false then
    (false, emit (.Log .cerr "DXGI: Failed to create swapchain\n") r)
  else
  let r := assign (fun s => { s with _swapChain := some s.nextId, nextId := s.nextId + 1 }) r
  -- the result of `CreateSwapchainResources()` is discarded
  let r := (CreateSwapchainResources hrSwap r).2
  (true, r)

/-- Model of `DebugLayerApplication::Load`; `hr 0` is the result of `CreateBuffer`. -/
def Load (hr : Nat → Bool) (r : Traced DebugLayerApplication) :
    Bool × Traced DebugLayerApplication :=
  let r := emit .CreateShaderCollection r
  let r := assign (fun s =>
    { s with _shaderCollection := some s.nextId, nextId := s.nextId + 1 }) r
  let r := assign (fun s => { s with _triangleVertices := none }) r
  let r := emit (.CreateBuffer ._triangleVertices) r
  if hr 0 = false then
    (false, emit (.Log .cerr "D3D11: Failed to create triangle vertex buffer\n") r)
  else
    (true, assign (fun s =>
      { s with _triangleVertices := some s.nextId, nextId := s.nextId + 1 }) r)

end DebugLayerApplication

namespace CameraApplication

/-- Model of `CameraApplication::InitializeImGui`. -/
def InitializeImGui (windowWidth windowHeight : Int) (r : Traced CameraApplication) :
    Traced CameraApplication :=
  let r := emit .ImGui_CreateContext r
  let r := assign (fun s => { s with _imGuiContext := some s.nextId, nextId := s.nextId + 1 }) r
  let r := emit .ImGui_GetIo r
  let r := assign (fun s => { s with imGuiDisplaySize := (windowWidth, windowHeight) }) r
  let r := emit (.ImGui_SetDisplaySize windowWidth windowHeight) r
  emit .ImGui_ImplGlfw_InitForOther r

/-- Model of `CameraApplication::Initialize`.  `baseOk` is the result of
`ApplicationWithInput::Initialize`; `hr 0 .. hr 3` are the results of `CreateDXGIFactory1`,
`D3D11CreateDevice`, the debug-layer query and `CreateSwapChainForHwnd`; `hrSwap` gives the
results of the calls made inside `CreateSwapchainResources`. -/
def Initialize (ndebug baseOk : Bool) (windowWidth windowHeight : Int)
    (hr hrSwap : Nat → Bool) (r : Traced CameraApplication) :
    Bool × Traced CameraApplication :=
  let r := emit .ApplicationWithInput_Initialize r
  if baseOk = false then (false, r)
  else
  let r := assign (fun s => { s with _dxgiFactory := none }) r
  let r := emit .CreateDXGIFactory1 r
  if hr 0 = false then
    (false, emit (.Log .cout "DXGI: Failed to create factory\n") r)
  else
  let r := assign (fun s => { s with _dxgiFactory := some s.nextId, nextId := s.nextId + 1 }) r
  let r := assign (fun s => { s with _device := none }) r
  let r := emit (.D3D11CreateDevice (!ndebug)) r
  if hr 1 = false then
    (false, emit (.Log .cout "D3D11: Failed to create Device and Device Context\n") r)
  else
  -- the device takes `nextId`, the local `deviceContext` takes `nextId + 1`
  let r := assign (fun s => { s with _device := some s.nextId, nextId := s.nextId + 2 }) r
  let r := assign (fun s => { s with _debug := none }) r
  let r := emit .QueryDebugInterface r
  if hr 2 = false then
    (false, emit (.Log .cout "D3D11: Failed to get the debug layer from the device\n") r)
  else
  let r := assign (fun s => { s with _debug := some s.nextId, nextId := s.nextId + 1 }) r
  let r := InitializeImGui windowWidth windowHeight r
  let r := emit (.SetPrivateData "DEV_Main") r
  let r := emit (.SetDebugName ._deviceContext "CTX_Main") r
  let r := emit (.Construct ._deviceContext) r
  let r := assign (fun s =>
    { s with _deviceContext := some s.nextId, nextId := s.nextId + 1 }) r
  let r := assign (fun s => { s with _swapChain := none }) r
  let r := emit (.CreateSwapChainForHwnd windowWidth windowHeight .B8G8R8A8_UNORM 2) r
  if hr 3 = false then
    (false, emit (.Log .cout "DXGI: Failed to create SwapChain\n") r)
  else
  let r := assign (fun s => { s with _swapChain := some s.nextId, nextId := s.nextId + 1 }) r
  -- the result of `CreateSwapchainResources()` is discarded
  let r := (CreateSwapchainResources hrSwap r).2
  let r := emit (.Construct ._pipelineFactory) r
  let r := assign (fun s =>
    { s with _pipelineFactory := some s.nextId, nextId := s.nextId + 1 }) r
  let r := emit (.Construct ._textureFactory) r
  let r := assign (fun s =>
    { s with _textureFactory := some s.nextId, nextId := s.nextId + 1 }) r
  let r := emit (.Construct ._modelFactory) r
  let r := assign (fun s => { s with _modelFactory := some s.nextId, nextId := s.nextId + 1 }) r
  let r := emit (.Construct ._camera) r
  let r := assign (fun s => { s with _camera := some s.nextId, nextId := s.nextId + 1 }) r
  (true, r)

/-- Model of `CameraApplication::Update`.  `angle` is the function-local
`static float angle`, passed in and returned; all `float` arithmetic is exact rational
arithmetic. -/
def Update (inp : UpdateInput) (angle : Rat) (r : Traced CameraApplication) :
    Rat × Traced CameraApplication :=
  let r := emit .ApplicationWithInput_Update r
  let r := if inp.escapeDown then emit .Close r else r
  let r := if inp.wPressed then emit (.Camera_Move (1 / 10)) r else r
  let r := if inp.sPressed then emit (.Camera_Move (-(1 / 10))) r else r
  let r := if inp.aPressed then emit (.Camera_Slide (-(1 / 10))) r else r
  let r := if inp.dPressed then emit (.Camera_Slide (1 / 10)) r else r
  let r :=
    if inp.button1Pressed then
      let r := emit (.Camera_AddYaw (inp.deltaX * (1 / 10))) r
      emit (.Camera_AddPitch (inp.deltaY * (1 / 10))) r
    else r
  let angle :=
    if r.app._toggledRotation then angle + 90 * (10 / 60000)
    else angle - 90 * (10 / 60000)
  let r := emit (.XMMatrixRotationY angle) r
  let r := emit .XMStoreFloat4x4 r
  let r := emit (.UpdateSubresource ._objectConstantBuffer) r
  (angle, r)

/-- A run of `Update` calls, one per input, threading the static `angle`. -/
def updateAll (inps : List UpdateInput) (angle : Rat) (r : Traced CameraApplication) :
    Rat × Traced CameraApplication :=
  inps.foldl (fun st inp => Update inp st.1 st.2) (angle, r)

/-- A run of `Render` calls, one per UI frame. -/
def renderAll (uis : List UiInput) (r : Traced CameraApplication) : Traced CameraApplication :=
  uis.foldl (fun st ui => Render ui st) r

/-- The part of `Render` up to and including `DrawIndexed`. -/
def Render_scene (r : Traced CameraApplication) : Traced CameraApplication :=
  let r := emit .Camera_Update r
  let r := emit .Camera_GetCameraConstants r
  let r := emit (.UpdateSubresource ._cameraConstantBuffer) r
  let r := emit (.Clear r.app._renderTarget r.app._depthStencilView) r
  let r := emit .SetPipeline r
  let r := emit (.SetVertexBuffer ._modelVertices) r
  let r := emit (.SetIndexBuffer ._modelIndices) r
  emit .DrawIndexed r

end CameraApplication

end LearnD3D11

namespace LearnD3D11

/-! ## Reading diagnostics, startup states -/

/-- A `DebugLayerApplication` right after construction: every member is empty. -/
def DebugLayerApplication.constructed : Traced DebugLayerApplication :=
  { app :=
      { _device := none, _deviceContext := none, _debug := none, _dxgiFactory := none,
        _swapChain := none, _renderTarget := none, _triangleVertices := none,
        _shaderCollection := none, nextId := 0 },
    trace := [] }

/-- A `CameraApplication` right after construction: every pointer member is empty. -/
def CameraApplication.constructed : Traced CameraApplication :=
  { app :=
      { _device := none, _deviceContext := none, _debug := none, _dxgiFactory := none,
        _swapChain := none, _renderTarget := none, _depthStencilView := none,
        _pipeline := none, _pipelineFactory := none, _textureFactory := none,
        _modelFactory := none, _camera := none, _imGuiContext := none,
        _textureSrv := none, _linearSamplerState := none, _modelVertices := none,
        _modelIndices := none, _cameraConstantBuffer := none, _objectConstantBuffer := none,
        _depthDisabledDepthStencilState := none, _depthEnabledLessDepthStencilState := none,
        _depthEnabledLessEqualDepthStencilState := none,
        _depthEnabledAlwaysDepthStencilState := none,
        _depthEnabledNeverDepthStencilState := none,
        _depthEnabledEqualDepthStencilState := none,
        _depthEnabledNotEqualDepthStencilState := none,
        _depthEnabledGreaterDepthStencilState := none,
        _depthEnabledGreaterEqualDepthStencilState := none,
        _wireFrameCullBackRasterizerState := none, _wireFrameCullFrontRasterizerState := none,
        _wireFrameCullNoneRasterizerState := none, _solidFrameCullBackRasterizerState := none,
        _solidFrameCullFrontRasterizerState := none,
        _solidFrameCullNoneRasterizerState := none,
        _selectedDepthFunction := 1, _selectedRasterizerState := 11, _isWireframe := false,
        _toggledRotation := false, pipelineDepthStencilState := none,
        pipelineRasterizerState := none, imGuiDisplaySize := (0, 0), nextId := 0 },
    trace := [] }

/-- The swapchain-dependent views of a `CameraApplication` that are held. -/
def CameraApplication.viewsHeld (r : Traced CameraApplication) : List Member :=
  CameraApplication.heldViews r.app

/-- A native call made inside `CreateSwapchainResources`. -/
def Call.isSwapchainStep : Call → Bool
  | .GetBuffer _ => true
  | .CreateRenderTargetView => true
  | .CreateTexture2D => true
  | .CreateDepthStencilView => true
  | _ => false

/-- Number of native calls of `CreateSwapchainResources` made in a trace. -/
def swapchainStepCount (t : List Logged) : Nat := (callsOf t).countP Call.isSwapchainStep

/-- The diagnostics of a trace, each with the stream it is written to, in order. -/
def logsOf (t : List Logged) : List (OStream × String) :=
  (callsOf t).filterMap (fun c => match c with
    | .Log stream message => some (stream, message)
    | _ => none)

/-- The message `CreateSwapchainResources` writes when its step `k` fails: 0 back-buffer
retrieval, 1 render-target view, 2 depth texture, 3 depth-stencil view. -/
def swapchainStepMessage : Nat → String
  | 0 => "D3D11: Failed to get back buffer from swapchain\n"
  | 1 => "D3D11: Failed to create rendertarget view from back buffer\n"
  | 2 => "D3D11: Failed to create depth buffer\n"
  | _ => "D3D11: Failed to create shaderresource view from back buffer\n"

/-- The message begins with one of the component tags `DXGI: `, `D3D11: `,
`PipelineFactory: `. -/
def componentPrefixed (message : String) : Bool :=
  "DXGI: ".toList.isPrefixOf message.toList ||
  "D3D11: ".toList.isPrefixOf message.toList ||
  "PipelineFactory: ".toList.isPrefixOf message.toList

/-- The call is no diagnostic, or it is a diagnostic written to `stream` whose message
begins with a component tag. -/
def Call.loggedTo (stream : OStream) : Call → Bool
  | .Log st message => decide (st = stream) && componentPrefixed message
  | _ => true

/-- Every diagnostic in the trace goes to `stream` and begins with a component tag. -/
def allLoggedTo (stream : OStream) (t : List Logged) : Prop :=
  ∀ e ∈ t, e.call.loggedTo stream = true

instance (stream : OStream) (t : List Logged) : Decidable (allLoggedTo stream t) := by
  unfold allLoggedTo
  infer_instance

/-- The later state `t` has the trace of `r` followed by calls that all satisfy `P`. -/
def Appends {σ : Type} (P : Call → Bool) (r t : Traced σ) : Prop :=
  ∃ l, t.trace = r.trace ++ l ∧ ∀ e ∈ l, P e.call = true

/-- A call of `ImGui::End`. -/
def Call.isImGuiEnd : Call → Bool
  | .ImGui_End => true
  | _ => false

/-- A call of `ImGui::NewFrame`. -/
def Call.isImGuiNewFrame : Call → Bool
  | .ImGui_NewFrame => true
  | _ => false

/-- A call of `ImGui::Render`. -/
def Call.isImGuiRender : Call → Bool
  | .ImGui_Render => true
  | _ => false

/-- A render-state setter of the pipeline object: `SetDepthStencilState` or
`SetRasterizerState`. -/
def Call.isStateSet : Call → Bool
  | .SetDepthStencilState _ => true
  | .SetRasterizerState _ => true
  | _ => false

/-- The bind of the pipeline or the draw of the 3D scene: `SetPipeline` or `DrawIndexed`. -/
def Call.isSceneStep : Call → Bool
  | .SetPipeline => true
  | .DrawIndexed => true
  | _ => false

end LearnD3D11

/-! # Theorems -/

namespace LearnD3D11

/-! ## Resize lifecycle -/

theorem callsSince_append {σ : Type} (r t : Traced σ) (l : List Logged)
    (h : t.trace = r.trace ++ l) : callsSince r t = l := by
  simp [callsSince, h]

/-- C1: when `ResizeBuffers` succeeds, `OnResize` of both applications performs Flush,
DestroySwapchainResources, ResizeBuffers, CreateSwapchainResources in that order, each once,
followed in `CameraApplication` by the camera `Resize` and the ImGui `DisplaySize` update;
and `ResizeBuffers` is called while every swapchain-dependent view is empty. -/
theorem C1_onResize_order (width height : Int) (hr : Nat → Bool) :
    (∀ r : Traced DebugLayerApplication,
      resizeSteps (callsSince r (DebugLayerApplication.OnResize width height true hr r)) =
        [Call.Flush, Call.DestroySwapchainResources,
          Call.ResizeBuffers 0 width height DXGI_FORMAT.B8G8R8A8_UNORM 0,
          Call.CreateSwapchainResources] ∧
      resizeWithViewsEmpty
        (callsSince r (DebugLayerApplication.OnResize width height true hr r))) ∧
    (∀ r : Traced CameraApplication,
      resizeSteps (callsSince r (CameraApplication.OnResize width height true hr r)) =
        [Call.Flush, Call.DestroySwapchainResources,
          Call.ResizeBuffers 0 width height DXGI_FORMAT.B8G8R8A8_UNORM 0,
          Call.CreateSwapchainResources,
          Call.Camera_Resize width height, Call.ImGui_SetDisplaySize width height] ∧
      resizeWithViewsEmpty
        (callsSince r (CameraApplication.OnResize width height true hr r))) := by
  constructor
  · intro r
    cases h0 : hr 0
    · simp [callsSince, DebugLayerApplication.OnResize,
        DebugLayerApplication.CreateSwapchainResources,
        DebugLayerApplication.DestroySwapchainResources, DebugLayerApplication.emit,
        DebugLayerApplication.assign, DebugLayerApplication.heldViews, h0,
        resizeWithViewsEmpty]
      exact ⟨rfl, by simp [Call.isResizeBuffers]⟩
    · cases h1 : hr 1 <;>
        (simp [callsSince, DebugLayerApplication.OnResize,
          DebugLayerApplication.CreateSwapchainResources,
          DebugLayerApplication.DestroySwapchainResources, DebugLayerApplication.emit,
          DebugLayerApplication.assign, DebugLayerApplication.heldViews, h0, h1,
          resizeWithViewsEmpty]
         exact ⟨rfl, by simp [Call.isResizeBuffers]⟩)
  · intro r
    cases h0 : hr 0
    · simp [callsSince, CameraApplication.OnResize,
        CameraApplication.CreateSwapchainResources,
        CameraApplication.DestroySwapchainResources, CameraApplication.emit,
        CameraApplication.assign, CameraApplication.heldViews, h0, resizeWithViewsEmpty]
      exact ⟨rfl, by simp [Call.isResizeBuffers]⟩
    · cases h1 : hr 1
      · simp [callsSince, CameraApplication.OnResize,
          CameraApplication.CreateSwapchainResources,
          CameraApplication.DestroySwapchainResources, CameraApplication.emit,
          CameraApplication.assign, CameraApplication.heldViews, h0, h1, resizeWithViewsEmpty]
        exact ⟨rfl, by simp [Call.isResizeBuffers]⟩
      · cases h2 : hr 2
        · simp [callsSince, CameraApplication.OnResize,
            CameraApplication.CreateSwapchainResources,
            CameraApplication.DestroySwapchainResources, CameraApplication.emit,
            CameraApplication.assign, CameraApplication.heldViews, h0, h1, h2,
            resizeWithViewsEmpty]
          exact ⟨rfl, by simp [Call.isResizeBuffers]⟩
        · cases h3 : hr 3 <;>
            (simp [callsSince, CameraApplication.OnResize,
              CameraApplication.CreateSwapchainResources,
              CameraApplication.DestroySwapchainResources, CameraApplication.emit,
              CameraApplication.assign, CameraApplication.heldViews, h0, h1, h2, h3,
              resizeWithViewsEmpty]
             exact ⟨rfl, by simp [Call.isResizeBuffers]⟩)

theorem DebugLayerApplication.debugLayer_OnResize_run (width height : Int) (ok : Bool)
    (hr : Nat → Bool) (r : Traced DebugLayerApplication) :
    (OnResize width height ok hr r).trace =
      r.trace ++ callsSince r (OnResize width height ok hr r) ∧
    destroyCount (callsSince r (OnResize width height ok hr r)) = 1 ∧
    createCount (callsSince r (OnResize width height ok hr r)) = (if ok then 1 else 0) := by
  cases ok
  · simp [callsSince, OnResize, DestroySwapchainResources, emit, assign]
    exact ⟨rfl, rfl⟩
  · cases h0 : hr 0
    · simp [callsSince, OnResize, CreateSwapchainResources, DestroySwapchainResources, emit,
        assign, h0]
      exact ⟨rfl, rfl⟩
    · cases h1 : hr 1 <;>
        (simp [callsSince, OnResize, CreateSwapchainResources, DestroySwapchainResources, emit,
          assign, h0, h1]
         exact ⟨rfl, rfl⟩)

theorem CameraApplication.camera_OnResize_run (width height : Int) (ok : Bool)
    (hr : Nat → Bool) (r : Traced CameraApplication) :
    (OnResize width height ok hr r).trace =
      r.trace ++ callsSince r (OnResize width height ok hr r) ∧
    destroyCount (callsSince r (OnResize width height ok hr r)) = 1 ∧
    createCount (callsSince r (OnResize width height ok hr r)) = (if ok then 1 else 0) := by
  cases ok
  · simp [callsSince, OnResize, DestroySwapchainResources, emit, assign]
    exact ⟨rfl, rfl⟩
  · cases h0 : hr 0
    · simp [callsSince, OnResize, CreateSwapchainResources, DestroySwapchainResources, emit,
        assign, h0]
      exact ⟨rfl, rfl⟩
    · cases h1 : hr 1
      · simp [callsSince, OnResize, CreateSwapchainResources, DestroySwapchainResources, emit,
          assign, h0, h1]
        exact ⟨rfl, rfl⟩
      · cases h2 : hr 2
        · simp [callsSince, OnResize, CreateSwapchainResources, DestroySwapchainResources,
            emit, assign, h0, h1, h2]
          exact ⟨rfl, rfl⟩
        · cases h3 : hr 3 <;>
            (simp [callsSince, OnResize, CreateSwapchainResources, DestroySwapchainResources,
              emit, assign, h0, h1, h2, h3]
             exact ⟨rfl, rfl⟩)

theorem destroyCount_append (a b : List Logged) :
    destroyCount (a ++ b) = destroyCount a + destroyCount b := by
  simp [destroyCount, callsOf]

theorem createCount_append (a b : List Logged) :
    createCount (a ++ b) = createCount a + createCount b := by
  simp [createCount, callsOf]

theorem succeededCount_cons (q : ResizeRequest) (rs : List ResizeRequest) :
    succeededCount (q :: rs) = (if q.resizeOk then 1 else 0) + succeededCount rs := by
  cases h : q.resizeOk <;> simp [succeededCount, h, Nat.add_comm]

theorem DebugLayerApplication.debugLayer_resizeAll_counts (rs : List ResizeRequest) :
    ∀ r : Traced DebugLayerApplication, ∃ l,
      (resizeAll rs r).trace = r.trace ++ l ∧
      destroyCount l = rs.length ∧ createCount l = succeededCount rs := by
  induction rs with
  | nil => intro r; exact ⟨[], by simp [resizeAll], rfl, rfl⟩
  | cons q rs ih =>
    intro r
    obtain ⟨l, hl, hd, hc⟩ := ih (OnResize q.width q.height q.resizeOk q.hr r)
    obtain ⟨he, hn⟩ := debugLayer_OnResize_run q.width q.height q.resizeOk q.hr r
    refine ⟨callsSince r (OnResize q.width q.height q.resizeOk q.hr r) ++ l, ?_, ?_, ?_⟩
    · show (resizeAll rs (OnResize q.width q.height q.resizeOk q.hr r)).trace = _
      rw [hl, he, List.append_assoc]
    · rw [destroyCount_append, hn.1, hd, List.length_cons, Nat.add_comm]
    · rw [createCount_append, hn.2, hc, succeededCount_cons]

theorem CameraApplication.camera_resizeAll_counts (rs : List ResizeRequest) :
    ∀ r : Traced CameraApplication, ∃ l,
      (resizeAll rs r).trace = r.trace ++ l ∧
      destroyCount l = rs.length ∧ createCount l = succeededCount rs := by
  induction rs with
  | nil => intro r; exact ⟨[], by simp [resizeAll], rfl, rfl⟩
  | cons q rs ih =>
    intro r
    obtain ⟨l, hl, hd, hc⟩ := ih (OnResize q.width q.height q.resizeOk q.hr r)
    obtain ⟨he, hn⟩ := camera_OnResize_run q.width q.height q.resizeOk q.hr r
    refine ⟨callsSince r (OnResize q.width q.height q.resizeOk q.hr r) ++ l, ?_, ?_, ?_⟩
    · show (resizeAll rs (OnResize q.width q.height q.resizeOk q.hr r)).trace = _
      rw [hl, he, List.append_assoc]
    · rw [destroyCount_append, hn.1, hd, List.length_cons, Nat.add_comm]
    · rw [createCount_append, hn.2, hc, succeededCount_cons]

/-- C2 (as stated) fails: one `OnResize` whose `ResizeBuffers` fails calls
DestroySwapchainResources once and CreateSwapchainResources not at all. -/
theorem C2_counts_differ_on_failure :
    ¬ (destroyCount (callsSince DebugLayerApplication.running
          (DebugLayerApplication.resizeAll [⟨800, 600, false, fun _ => true⟩]
            DebugLayerApplication.running)) =
        createCount (callsSince DebugLayerApplication.running
          (DebugLayerApplication.resizeAll [⟨800, 600, false, fun _ => true⟩]
            DebugLayerApplication.running))) := by
  decide

/-- C2 (amended): over any run of `OnResize` calls, in both applications,
DestroySwapchainResources is called once per `OnResize` and CreateSwapchainResources once per
`OnResize` whose `ResizeBuffers` succeeded. -/
theorem C2_destroy_create_counts (rs : List ResizeRequest) :
    (∀ r : Traced DebugLayerApplication,
      destroyCount (callsSince r (DebugLayerApplication.resizeAll rs r)) = rs.length ∧
      createCount (callsSince r (DebugLayerApplication.resizeAll rs r)) = succeededCount rs) ∧
    (∀ r : Traced CameraApplication,
      destroyCount (callsSince r (CameraApplication.resizeAll rs r)) = rs.length ∧
      createCount (callsSince r (CameraApplication.resizeAll rs r)) = succeededCount rs) := by
  constructor
  · intro r
    obtain ⟨l, hl, hd, hc⟩ := DebugLayerApplication.debugLayer_resizeAll_counts rs r
    rw [callsSince_append r _ l hl]
    exact ⟨hd, hc⟩
  · intro r
    obtain ⟨l, hl, hd, hc⟩ := CameraApplication.camera_resizeAll_counts rs r
    rw [callsSince_append r _ l hl]
    exact ⟨hd, hc⟩

/-! ## RenderUi and Render in straight-line form -/

theorem callsOf_stamp (held : List Member) (calls : List Call) :
    callsOf (stamp held calls) = calls := by
  simp [callsOf, stamp, Function.comp_def]

namespace CameraApplication

theorem emit_eq (c : Call) (r : Traced CameraApplication) :
    emit c r = ⟨r.app, r.trace ++ [⟨c, heldViews r.app⟩]⟩ := rfl

theorem assign_eq (f : CameraApplication → CameraApplication) (r : Traced CameraApplication) :
    assign f r = ⟨f r.app, r.trace⟩ := rfl

theorem depthSwitch_eq (r : Traced CameraApplication) :
    depthSwitch r =
      ⟨{ r.app with pipelineDepthStencilState :=
          (selectedDepthStencilState r.app).getD r.app.pipelineDepthStencilState },
        r.trace ++ (selectedDepthStencilState r.app).toList.map
          (fun st => ⟨Call.SetDepthStencilState st, heldViews r.app⟩)⟩ := by
  unfold depthSwitch
  cases h : selectedDepthStencilState r.app <;>
    simp [Pipeline_SetDepthStencilState, emit, assign]

theorem rasterizerSwitch_eq (r : Traced CameraApplication) :
    rasterizerSwitch r =
      ⟨{ r.app with pipelineRasterizerState :=
          (selectedRasterizerState r.app).getD r.app.pipelineRasterizerState },
        r.trace ++ (selectedRasterizerState r.app).toList.map
          (fun st => ⟨Call.SetRasterizerState st, heldViews r.app⟩)⟩ := by
  unfold rasterizerSwitch
  cases h : selectedRasterizerState r.app <;>
    simp [Pipeline_SetRasterizerState, emit, assign]

theorem RenderUi_window_eq (ui : UiInput) (r : Traced CameraApplication) :
    RenderUi_window ui r =
      ⟨afterWindow ui r.app, r.trace ++ stamp (heldViews r.app) (windowCalls ui r.app)⟩ := by
  simp only [RenderUi_window, depthRadioButton, cullRadioButton, depthSwitch_eq,
    rasterizerSwitch_eq, emit_eq, assign_eq, heldViews]
  simp [afterWindow, atRasterizerSwitch, atDepthSwitch, windowCalls, depthSelectionAtSwitch,
    cullSelectionAtSwitch, stamp, Function.comp_def]

theorem heldViews_afterWindow (ui : UiInput) (s : CameraApplication) :
    heldViews (afterWindow ui s) = heldViews s := by
  simp [heldViews, afterWindow, atRasterizerSwitch, atDepthSwitch]

theorem RenderUi_eq (ui : UiInput) (r : Traced CameraApplication) :
    RenderUi ui r =
      ⟨if ui.beginOpen then afterWindow ui r.app else r.app,
        r.trace ++ stamp (heldViews r.app) (uiCalls ui r.app)⟩ := by
  cases h : ui.beginOpen
  · simp [RenderUi, h, emit_eq, uiCalls, stamp]
  · simp [RenderUi, h, emit_eq, uiCalls, stamp, RenderUi_window_eq, heldViews_afterWindow]

theorem heldViews_afterUi (ui : UiInput) (s : CameraApplication) :
    heldViews (if ui.beginOpen then afterWindow ui s else s) = heldViews s := by
  cases ui.beginOpen <;> simp [heldViews_afterWindow]

theorem Render_eq (ui : UiInput) (r : Traced CameraApplication) :
    Render ui r =
      ⟨if ui.beginOpen then afterWindow ui r.app else r.app,
        r.trace ++ stamp (heldViews r.app) (renderCalls ui r.app)⟩ := by
  simp [Render, emit_eq, RenderUi_eq, heldViews_afterUi, renderCalls, stamp]

theorem RenderUi_calls (ui : UiInput) (r : Traced CameraApplication) :
    callsOf (callsSince r (RenderUi ui r)) = uiCalls ui r.app := by
  rw [callsSince_append r _ _ (by rw [RenderUi_eq]), callsOf_stamp]

theorem Render_calls (ui : UiInput) (r : Traced CameraApplication) :
    callsOf (callsSince r (Render ui r)) = renderCalls ui r.app := by
  rw [callsSince_append r _ _ (by rw [Render_eq]), callsOf_stamp]

end CameraApplication

/-! ## Render-state selection -/

theorem depthBindsOf_append (a b : List Call) :
    depthBindsOf (a ++ b) = depthBindsOf a ++ depthBindsOf b := by
  simp [depthBindsOf]

theorem rasterizerBindsOf_append (a b : List Call) :
    rasterizerBindsOf (a ++ b) = rasterizerBindsOf a ++ rasterizerBindsOf b := by
  simp [rasterizerBindsOf]

theorem depthBindsOf_map_depth (l : List (Option DepthStencilState)) :
    depthBindsOf (l.map Call.SetDepthStencilState) = l := by
  induction l with
  | nil => rfl
  | cons a l ih => simpa [depthBindsOf] using ih

theorem depthBindsOf_map_rasterizer (l : List (Option RasterizerState)) :
    depthBindsOf (l.map Call.SetRasterizerState) = [] := by
  simp [depthBindsOf]

theorem rasterizerBindsOf_map_rasterizer (l : List (Option RasterizerState)) :
    rasterizerBindsOf (l.map Call.SetRasterizerState) = l := by
  induction l with
  | nil => rfl
  | cons a l ih => simpa [rasterizerBindsOf] using ih

theorem rasterizerBindsOf_map_depth (l : List (Option DepthStencilState)) :
    rasterizerBindsOf (l.map Call.SetDepthStencilState) = [] := by
  simp [rasterizerBindsOf]

namespace CameraApplication

theorem depthBindsOf_uiCalls (ui : UiInput) (s : CameraApplication) :
    depthBindsOf (uiCalls ui s) =
      if ui.beginOpen then (selectedDepthStencilState (atDepthSwitch ui s)).toList else [] := by
  cases h : ui.beginOpen
  · simp [uiCalls, h]
    rfl
  · simp only [uiCalls, windowCalls, h, if_true, depthBindsOf_append, depthBindsOf_map_depth,
      depthBindsOf_map_rasterizer]
    simp [depthBindsOf]

theorem rasterizerBindsOf_uiCalls (ui : UiInput) (s : CameraApplication) :
    rasterizerBindsOf (uiCalls ui s) =
      if ui.beginOpen then (selectedRasterizerState (atRasterizerSwitch ui s)).toList
      else [] := by
  cases h : ui.beginOpen
  · simp [uiCalls, h]
    rfl
  · simp only [uiCalls, windowCalls, h, if_true, rasterizerBindsOf_append,
      rasterizerBindsOf_map_depth, rasterizerBindsOf_map_rasterizer]
    simp [rasterizerBindsOf]

theorem selectedDepthStencilState_none (s : CameraApplication)
    (h : s._selectedDepthFunction < 0 ∨ 8 < s._selectedDepthFunction) :
    selectedDepthStencilState s = none := by
  unfold selectedDepthStencilState
  simp only []
  repeat rw [if_neg (by omega)]

theorem selectedRasterizerState_none (s : CameraApplication)
    (h : s._selectedRasterizerState < 10 ∨ 12 < s._selectedRasterizerState) :
    selectedRasterizerState s = none := by
  unfold selectedRasterizerState
  simp only []
  cases s._isWireframe <;> simp only [if_true, Bool.false_eq_true, if_false] <;>
    repeat rw [if_neg (by omega)]

end CameraApplication

/-- C4: in `RenderUi`, when the depth selection the `switch` sees (the value `RenderUi`
leaves in `_selectedDepthFunction`) lies outside 0..8, no `SetDepthStencilState` call is made
and the pipeline keeps its depth-stencil state; when the rasterizer selection lies outside
10..12, whatever the wireframe flag, no `SetRasterizerState` call is made and the pipeline
keeps its rasterizer state. -/
theorem C4_out_of_range_selection (ui : UiInput) (r : Traced CameraApplication) :
    (((CameraApplication.RenderUi ui r).app._selectedDepthFunction < 0 ∨
        8 < (CameraApplication.RenderUi ui r).app._selectedDepthFunction) →
      depthBinds (callsSince r (CameraApplication.RenderUi ui r)) = [] ∧
      (CameraApplication.RenderUi ui r).app.pipelineDepthStencilState =
        r.app.pipelineDepthStencilState) ∧
    (((CameraApplication.RenderUi ui r).app._selectedRasterizerState < 10 ∨
        12 < (CameraApplication.RenderUi ui r).app._selectedRasterizerState) →
      rasterizerBinds (callsSince r (CameraApplication.RenderUi ui r)) = [] ∧
      (CameraApplication.RenderUi ui r).app.pipelineRasterizerState =
        r.app.pipelineRasterizerState) := by
  unfold depthBinds rasterizerBinds
  rw [CameraApplication.RenderUi_calls, CameraApplication.depthBindsOf_uiCalls,
    CameraApplication.rasterizerBindsOf_uiCalls, CameraApplication.RenderUi_eq]
  cases hopen : ui.beginOpen
  · simp
  · simp only [if_true]
    constructor
    · intro h
      have hn := CameraApplication.selectedDepthStencilState_none
        (CameraApplication.atDepthSwitch ui r.app) h
      simp [hn, CameraApplication.afterWindow, CameraApplication.atRasterizerSwitch]
    · intro h
      have hn := CameraApplication.selectedRasterizerState_none
        (CameraApplication.atRasterizerSwitch ui r.app) h
      simp [hn, CameraApplication.afterWindow]

/-- C4 at a concrete frame: depth selection 9 and rasterizer selection 13, window open,
nothing clicked. -/
theorem C4_out_of_range_selection_witness :
    depthBinds (callsSince (CameraApplication.loadedWith 9 13 true)
        (CameraApplication.RenderUi UiInput.idle (CameraApplication.loadedWith 9 13 true))) = [] ∧
    rasterizerBinds (callsSince (CameraApplication.loadedWith 9 13 true)
        (CameraApplication.RenderUi UiInput.idle (CameraApplication.loadedWith 9 13 true))) = [] :=
  ⟨((C4_out_of_range_selection UiInput.idle (CameraApplication.loadedWith 9 13 true)).1
      (Or.inr (by decide))).1,
   ((C4_out_of_range_selection UiInput.idle (CameraApplication.loadedWith 9 13 true)).2
      (Or.inr (by decide))).1⟩

namespace CameraApplication

theorem CreateDepthStencilStates_catalog (hr : Nat → Bool) (r : Traced CameraApplication)
    (hall : ∀ k, k < 9 → hr k = true) :
    depthCatalog (CreateDepthStencilStates hr r).2.app =
      [some (depthStateTable r.app.nextId 0), some (depthStateTable r.app.nextId 1),
        some (depthStateTable r.app.nextId 2), some (depthStateTable r.app.nextId 7),
        some (depthStateTable r.app.nextId 8), some (depthStateTable r.app.nextId 5),
        some (depthStateTable r.app.nextId 6), some (depthStateTable r.app.nextId 3),
        some (depthStateTable r.app.nextId 4)] := by
  have h0 := hall 0 (by decide)
  have h1 := hall 1 (by decide)
  have h2 := hall 2 (by decide)
  have h3 := hall 3 (by decide)
  have h4 := hall 4 (by decide)
  have h5 := hall 5 (by decide)
  have h6 := hall 6 (by decide)
  have h7 := hall 7 (by decide)
  have h8 := hall 8 (by decide)
  simp only [CreateDepthStencilStates, CreateDepthStencilState, h0, h1, h2, h3, h4, h5, h6, h7,
    h8, emit_eq, assign_eq, depthCatalog]
  simp [depthStateTable, depthCreationOrder, labelledDepthFunc, Nat.add_assoc]

theorem CreateRasterizerStates_catalog (hr : Nat → Bool) (r : Traced CameraApplication)
    (hall : ∀ k, k < 6 → hr k = true) :
    rasterizerCatalog (CreateRasterizerStates hr r).2.app =
      [some (rasterizerStateTable r.app.nextId true 11),
        some (rasterizerStateTable r.app.nextId true 10),
        some (rasterizerStateTable r.app.nextId true 12),
        some (rasterizerStateTable r.app.nextId false 11),
        some (rasterizerStateTable r.app.nextId false 10),
        some (rasterizerStateTable r.app.nextId false 12)] := by
  have h0 := hall 0 (by decide)
  have h1 := hall 1 (by decide)
  have h2 := hall 2 (by decide)
  have h3 := hall 3 (by decide)
  have h4 := hall 4 (by decide)
  have h5 := hall 5 (by decide)
  simp only [CreateRasterizerStates, CreateRasterizerState, h0, h1, h2, h3, h4, h5, emit_eq,
    assign_eq, rasterizerCatalog]
  simp [rasterizerStateTable, rasterizerCreationOrder, labelledFillMode, labelledCullMode,
    Nat.add_assoc]

theorem selectedDepthStencilState_of_catalog (s : CameraApplication) (base : Handle)
    (hcat : depthCatalog s =
      [some (depthStateTable base 0), some (depthStateTable base 1),
        some (depthStateTable base 2), some (depthStateTable base 7),
        some (depthStateTable base 8), some (depthStateTable base 5),
        some (depthStateTable base 6), some (depthStateTable base 3),
        some (depthStateTable base 4)])
    (h0 : 0 ≤ s._selectedDepthFunction) (h8 : s._selectedDepthFunction ≤ 8) :
    selectedDepthStencilState s = some (some (depthStateTable base s._selectedDepthFunction)) := by
  simp only [depthCatalog, List.cons.injEq, and_true] at hcat
  obtain ⟨c0, c1, c2, c7, c8, c5, c6, c3, c4⟩ := hcat
  unfold selectedDepthStencilState
  generalize s._selectedDepthFunction = i at h0 h8
  interval_cases i <;> simp [*]

theorem selectedRasterizerState_of_catalog (s : CameraApplication) (base : Handle)
    (hcat : rasterizerCatalog s =
      [some (rasterizerStateTable base true 11), some (rasterizerStateTable base true 10),
        some (rasterizerStateTable base true 12), some (rasterizerStateTable base false 11),
        some (rasterizerStateTable base false 10), some (rasterizerStateTable base false 12)])
    (hc : s._selectedRasterizerState = 10 ∨ s._selectedRasterizerState = 11 ∨
      s._selectedRasterizerState = 12) :
    selectedRasterizerState s =
      some (some (rasterizerStateTable base s._isWireframe s._selectedRasterizerState)) := by
  simp only [rasterizerCatalog, List.cons.injEq, and_true] at hcat
  obtain ⟨c0, c1, c2, c3, c4, c5⟩ := hcat
  unfold selectedRasterizerState
  generalize s._selectedRasterizerState = c at hc
  generalize s._isWireframe = w
  rcases hc with rfl | rfl | rfl <;> cases w <;> simp [*]

end CameraApplication

/-- C5: after `CreateDepthStencilStates` succeeded, a `RenderUi` whose window is open and
whose `switch` sees the depth index `i` in 0..8 makes exactly one `SetDepthStencilState`
call; the state bound depends on `i` alone, is the created object whose descriptor matches
the radio-button label of `i` (0 disabled; 1 LESS, 2 LESS_EQUAL, 3 GREATER, 4 GREATER_EQUAL,
5 EQUAL, 6 NOT_EQUAL, 7 ALWAYS, 8 NEVER, each enabled), and differs for different indices. -/
theorem C5_depth_selection (hr : Nat → Bool) (r0 : Traced CameraApplication)
    (hall : ∀ k, k < 9 → hr k = true) :
    (∀ (ui : UiInput) (r : Traced CameraApplication) (i : Int),
      CameraApplication.depthCatalog r.app =
        CameraApplication.depthCatalog (CameraApplication.CreateDepthStencilStates hr r0).2.app →
      ui.beginOpen = true →
      (CameraApplication.RenderUi ui r).app._selectedDepthFunction = i → 0 ≤ i → i ≤ 8 →
      depthBinds (callsSince r (CameraApplication.RenderUi ui r)) =
        [some (depthStateTable r0.app.nextId i)] ∧
      (CameraApplication.RenderUi ui r).app.pipelineDepthStencilState =
        some (depthStateTable r0.app.nextId i)) ∧
    (∀ i : Int, 0 ≤ i → i ≤ 8 →
      (depthStateTable r0.app.nextId i).desc.DepthEnable = decide (i ≠ 0) ∧
      (1 ≤ i → (depthStateTable r0.app.nextId i).desc.DepthFunc = labelledDepthFunc i)) ∧
    (∀ i j : Int, 0 ≤ i → i ≤ 8 → 0 ≤ j → j ≤ 8 → i ≠ j →
      (depthStateTable r0.app.nextId i).id ≠ (depthStateTable r0.app.nextId j).id ∧
      (depthStateTable r0.app.nextId i).desc ≠ (depthStateTable r0.app.nextId j).desc) := by
  refine ⟨?_, ?_, ?_⟩
  · intro ui r i hcat hopen hi h0 h8
    rw [CameraApplication.CreateDepthStencilStates_catalog hr r0 hall] at hcat
    rw [CameraApplication.RenderUi_eq] at hi ⊢
    simp only [hopen, if_true] at hi ⊢
    have hsel : (CameraApplication.atDepthSwitch ui r.app)._selectedDepthFunction = i := hi
    have hn := CameraApplication.selectedDepthStencilState_of_catalog
      (CameraApplication.atDepthSwitch ui r.app) r0.app.nextId hcat
      (by rw [hsel]; exact h0) (by rw [hsel]; exact h8)
    rw [hsel] at hn
    unfold depthBinds
    rw [callsSince_append r _ _ rfl, callsOf_stamp, CameraApplication.depthBindsOf_uiCalls]
    simp [hopen, hn, CameraApplication.afterWindow, CameraApplication.atRasterizerSwitch]
  · intro i h0 h8
    constructor
    · rfl
    · intro h1
      have : i ≠ 0 := by omega
      simp [depthStateTable, this]
  · intro i j h0 h8 g0 g8 hij
    interval_cases i <;> interval_cases j <;>
      first
        | exact absurd rfl hij
        | simp [depthStateTable, depthCreationOrder, labelledDepthFunc]

/-- C5 at a concrete frame: catalog created from the initialized application, window open,
nothing clicked, depth index 3 ("Greater"). -/
theorem C5_depth_selection_witness :
    depthBinds (callsSince (CameraApplication.loadedWith 3 11 false)
        (CameraApplication.RenderUi UiInput.idle (CameraApplication.loadedWith 3 11 false))) =
      [some (depthStateTable 12 3)] :=
  ((C5_depth_selection (fun _ => true) CameraApplication.initialized (fun _ _ => rfl)).1
    UiInput.idle (CameraApplication.loadedWith 3 11 false) 3 (by decide) rfl (by decide)
    (by decide) (by decide)).1

/-- C6: after `CreateRasterizerStates` succeeded, a `RenderUi` whose window is open and whose
`switch` sees the wireframe flag `w` and the cull index `c` in 10..12 makes exactly one
`SetRasterizerState` call, with the created object whose fill mode is WIREFRAME for `w` true
and SOLID for `w` false and whose cull mode is FRONT for 10, BACK for 11 and NONE for 12;
the six combinations give six different objects. -/
theorem C6_rasterizer_selection (hr : Nat → Bool) (r0 : Traced CameraApplication)
    (hall : ∀ k, k < 6 → hr k = true) :
    (∀ (ui : UiInput) (r : Traced CameraApplication) (w : Bool) (c : Int),
      CameraApplication.rasterizerCatalog r.app =
        CameraApplication.rasterizerCatalog
          (CameraApplication.CreateRasterizerStates hr r0).2.app →
      ui.beginOpen = true →
      (CameraApplication.RenderUi ui r).app._isWireframe = w →
      (CameraApplication.RenderUi ui r).app._selectedRasterizerState = c →
      (c = 10 ∨ c = 11 ∨ c = 12) →
      rasterizerBinds (callsSince r (CameraApplication.RenderUi ui r)) =
        [some (rasterizerStateTable r0.app.nextId w c)] ∧
      (CameraApplication.RenderUi ui r).app.pipelineRasterizerState =
        some (rasterizerStateTable r0.app.nextId w c)) ∧
    (∀ (w : Bool) (c : Int),
      (rasterizerStateTable r0.app.nextId w c).desc.FillMode =
        (if w then D3D11_FILL_MODE.WIREFRAME else D3D11_FILL_MODE.SOLID) ∧
      (c = 10 → (rasterizerStateTable r0.app.nextId w c).desc.CullMode = D3D11_CULL_MODE.FRONT) ∧
      (c = 11 → (rasterizerStateTable r0.app.nextId w c).desc.CullMode = D3D11_CULL_MODE.BACK) ∧
      (c = 12 → (rasterizerStateTable r0.app.nextId w c).desc.CullMode = D3D11_CULL_MODE.NONE)) ∧
    (∀ (w v : Bool) (c d : Int), (c = 10 ∨ c = 11 ∨ c = 12) → (d = 10 ∨ d = 11 ∨ d = 12) →
      (w ≠ v ∨ c ≠ d) →
      (rasterizerStateTable r0.app.nextId w c).id ≠ (rasterizerStateTable r0.app.nextId v d).id ∧
      (rasterizerStateTable r0.app.nextId w c).desc ≠
        (rasterizerStateTable r0.app.nextId v d).desc) := by
  refine ⟨?_, ?_, ?_⟩
  · intro ui r w c hcat hopen hw hc hrange
    rw [CameraApplication.CreateRasterizerStates_catalog hr r0 hall] at hcat
    rw [CameraApplication.RenderUi_eq] at hw hc ⊢
    simp only [hopen, if_true] at hw hc ⊢
    have hwire : (CameraApplication.atRasterizerSwitch ui r.app)._isWireframe = w := hw
    have hsel : (CameraApplication.atRasterizerSwitch ui r.app)._selectedRasterizerState = c :=
      hc
    have hcat2 : CameraApplication.rasterizerCatalog
        (CameraApplication.atRasterizerSwitch ui r.app) = _ := hcat
    have hn := CameraApplication.selectedRasterizerState_of_catalog
      (CameraApplication.atRasterizerSwitch ui r.app) r0.app.nextId hcat2
      (by rw [hsel]; exact hrange)
    rw [hsel, hwire] at hn
    unfold rasterizerBinds
    rw [callsSince_append r _ _ rfl, callsOf_stamp, CameraApplication.rasterizerBindsOf_uiCalls]
    simp [hopen, hn, CameraApplication.afterWindow]
  · intro w c
    refine ⟨rfl, ?_, ?_, ?_⟩ <;> intro h <;> simp [rasterizerStateTable, labelledCullMode, h]
  · intro w v c d hc hd hne
    rcases hc with rfl | rfl | rfl <;> rcases hd with rfl | rfl | rfl <;>
      cases w <;> cases v <;>
      simp [rasterizerStateTable, rasterizerCreationOrder, labelledFillMode,
        labelledCullMode] at hne ⊢

/-- C6 at a concrete frame: rasterizer catalog created after the depth catalog, window open,
nothing clicked, wireframe on, cull index 10 ("Front"). -/
theorem C6_rasterizer_selection_witness :
    rasterizerBinds (callsSince (CameraApplication.loadedWith 1 10 true)
        (CameraApplication.RenderUi UiInput.idle (CameraApplication.loadedWith 1 10 true))) =
      [some (rasterizerStateTable 21 true 10)] :=
  ((C6_rasterizer_selection (fun _ => true)
      (CameraApplication.CreateDepthStencilStates (fun _ => true)
        CameraApplication.initialized).2 (fun _ _ => rfl)).1
    UiInput.idle (CameraApplication.loadedWith 1 10 true) true 10 (by decide) rfl (by decide)
    (by decide) (by decide)).1

/-! ## Creation of the state catalog -/

theorem allOk_iff (hr : Nat → Bool) (n : Nat) :
    allOk hr n = true ↔ ∀ k, k < n → hr k = true := by
  simp [allOk]

theorem allOk_six (hr : Nat → Bool) :
    allOk hr 6 = (hr 0 && hr 1 && hr 2 && hr 3 && hr 4 && hr 5) := by
  simp [allOk, List.range_succ, Bool.and_assoc]

theorem allOk_nine (hr : Nat → Bool) :
    allOk hr 9 = (hr 0 && hr 1 && hr 2 && hr 3 && hr 4 && hr 5 && hr 6 && hr 7 && hr 8) := by
  simp [allOk, List.range_succ, Bool.and_assoc]

namespace CameraApplication

theorem CreateDepthStencilStates_fst (hr : Nat → Bool) (r : Traced CameraApplication) :
    (CreateDepthStencilStates hr r).1 = allOk hr 9 := by
  rw [allOk_nine]
  unfold CreateDepthStencilStates
  cases h0 : hr 0
  · simp
  cases h1 : hr 1
  · simp
  cases h2 : hr 2
  · simp
  cases h3 : hr 3
  · simp
  cases h4 : hr 4
  · simp
  cases h5 : hr 5
  · simp
  cases h6 : hr 6
  · simp
  cases h7 : hr 7
  · simp
  cases h8 : hr 8 <;> simp

theorem CreateRasterizerStates_fst (hr : Nat → Bool) (r : Traced CameraApplication) :
    (CreateRasterizerStates hr r).1 = allOk hr 6 := by
  rw [allOk_six]
  unfold CreateRasterizerStates
  cases h0 : hr 0
  · simp
  cases h1 : hr 1
  · simp
  cases h2 : hr 2
  · simp
  cases h3 : hr 3
  · simp
  cases h4 : hr 4
  · simp
  cases h5 : hr 5 <;> simp

theorem Load_fst (hr hrDepth hrRasterizer : Nat → Bool) (r : Traced CameraApplication) :
    (Load hr hrDepth hrRasterizer r).1 =
      (allOk hr 6 && allOk hrDepth 9 && allOk hrRasterizer 6) := by
  rw [allOk_six hr]
  unfold Load
  cases h0 : hr 0
  · simp
  cases h1 : hr 1
  · simp
  cases h2 : hr 2
  · simp
  cases h3 : hr 3
  · simp
  cases h4 : hr 4
  · simp
  cases h5 : hr 5
  · simp
  simp only [CreateDepthStencilStates_fst, CreateRasterizerStates_fst]
  cases allOk hrDepth 9 <;> cases allOk hrRasterizer 6 <;> simp

end CameraApplication

namespace CameraApplication

set_option maxHeartbeats 1000000 in
theorem CreateDepthStencilStates_attempts (hr : Nat → Bool) (r : Traced CameraApplication)
    (k : Nat) (hk : k < 9) (hprev : ∀ j, j < k → hr j = true) (hfail : hr k = false) :
    depthCreateCount (callsSince r (CreateDepthStencilStates hr r).2) = k + 1 := by
  interval_cases k <;>
    (simp [CreateDepthStencilStates, CreateDepthStencilState, emit_eq, assign_eq, hprev, hfail,
      callsSince]
     rfl)

set_option maxHeartbeats 1000000 in
theorem CreateRasterizerStates_attempts (hr : Nat → Bool) (r : Traced CameraApplication)
    (k : Nat) (hk : k < 6) (hprev : ∀ j, j < k → hr j = true) (hfail : hr k = false) :
    rasterizerCreateCount (callsSince r (CreateRasterizerStates hr r).2) = k + 1 := by
  interval_cases k <;>
    (simp [CreateRasterizerStates, CreateRasterizerState, emit_eq, assign_eq, hprev, hfail,
      callsSince]
     rfl)

end CameraApplication

/-- C7: `CreateDepthStencilStates` returns true exactly when all nine creations succeed and
`CreateRasterizerStates` exactly when all six succeed; when creation number `k` is the first to
fail the function returns false after `k + 1` attempts, so the later ones are not attempted;
`Load` returns false whenever either function does, and true exactly when its own six fallible
calls and all fifteen creations succeed. -/
theorem C7_catalog_creation (hr hrDepth hrRasterizer : Nat → Bool)
    (r : Traced CameraApplication) :
    ((CameraApplication.CreateDepthStencilStates hrDepth r).1 = true ↔
      ∀ k, k < 9 → hrDepth k = true) ∧
    ((CameraApplication.CreateRasterizerStates hrRasterizer r).1 = true ↔
      ∀ k, k < 6 → hrRasterizer k = true) ∧
    (∀ k, k < 9 → (∀ j, j < k → hrDepth j = true) → hrDepth k = false →
      (CameraApplication.CreateDepthStencilStates hrDepth r).1 = false ∧
      depthCreateCount
        (callsSince r (CameraApplication.CreateDepthStencilStates hrDepth r).2) = k + 1) ∧
    (∀ k, k < 6 → (∀ j, j < k → hrRasterizer j = true) → hrRasterizer k = false →
      (CameraApplication.CreateRasterizerStates hrRasterizer r).1 = false ∧
      rasterizerCreateCount
        (callsSince r (CameraApplication.CreateRasterizerStates hrRasterizer r).2) = k + 1) ∧
    (∀ r1 r2 : Traced CameraApplication,
      ((CameraApplication.CreateDepthStencilStates hrDepth r1).1 = false ∨
        (CameraApplication.CreateRasterizerStates hrRasterizer r2).1 = false) →
      (CameraApplication.Load hr hrDepth hrRasterizer r).1 = false) ∧
    ((CameraApplication.Load hr hrDepth hrRasterizer r).1 = true ↔
      (∀ k, k < 6 → hr k = true) ∧ (∀ k, k < 9 → hrDepth k = true) ∧
      (∀ k, k < 6 → hrRasterizer k = true)) := by
  refine ⟨?_, ?_, ?_, ?_, ?_, ?_⟩
  · rw [CameraApplication.CreateDepthStencilStates_fst, allOk_iff]
  · rw [CameraApplication.CreateRasterizerStates_fst, allOk_iff]
  · intro k hk hprev hfail
    refine ⟨?_, CameraApplication.CreateDepthStencilStates_attempts hrDepth r k hk hprev hfail⟩
    rw [CameraApplication.CreateDepthStencilStates_fst, ← Bool.not_eq_true, allOk_iff]
    intro hall
    rw [hall k hk] at hfail
    exact Bool.noConfusion hfail
  · intro k hk hprev hfail
    refine ⟨?_,
      CameraApplication.CreateRasterizerStates_attempts hrRasterizer r k hk hprev hfail⟩
    rw [CameraApplication.CreateRasterizerStates_fst, ← Bool.not_eq_true, allOk_iff]
    intro hall
    rw [hall k hk] at hfail
    exact Bool.noConfusion hfail
  · intro r1 r2 h
    rw [CameraApplication.Load_fst]
    rw [CameraApplication.CreateDepthStencilStates_fst,
      CameraApplication.CreateRasterizerStates_fst] at h
    rcases h with h | h <;> simp [h]
  · rw [CameraApplication.Load_fst]
    simp only [Bool.and_eq_true, allOk_iff, and_assoc]

/-! ## Frame sequencing -/

theorem Precedes_frameSteps (p q : Call → Bool)
    (hp : ∀ c, p c = true → c.isFrameStep = true)
    (hq : ∀ c, q c = true → c.isFrameStep = true) (l : List Call) :
    Precedes p q (frameSteps l) ↔ Precedes p q l := by
  unfold Precedes frameSteps
  have hf := @List.pairwise_filter Call (fun a b => ¬ (q a = true ∧ p b = true))
    (fun c => c.isFrameStep = true) _ l
  simp only [Bool.decide_eq_true] at hf
  rw [hf]
  constructor <;> intro h <;> refine h.imp ?_
  · intro a b hab hqp
    exact hab (hq a hqp.1) (hp b hqp.2) hqp
  · intro a b hab _ _
    exact hab

theorem countP_frameSteps (p : Call → Bool) (hp : ∀ c, p c = true → c.isFrameStep = true)
    (l : List Call) : (frameSteps l).countP p = l.countP p := by
  unfold frameSteps
  rw [List.countP_filter]
  congr 1
  funext c
  cases hc : p c
  · rfl
  · simp [hp c hc]

theorem isClear_frameStep (c : Call) (h : c.isClear = true) : c.isFrameStep = true := by
  simp [Call.isFrameStep, h]

theorem isBind_frameStep (c : Call) (h : c.isBind = true) : c.isFrameStep = true := by
  simp [Call.isFrameStep, h]

theorem isDraw_frameStep (c : Call) (h : c.isDraw = true) : c.isFrameStep = true := by
  simp [Call.isFrameStep, h]

theorem isOverlayDraw_frameStep (c : Call) (h : c.isOverlayDraw = true) :
    c.isFrameStep = true := by
  simp [Call.isFrameStep, h]

theorem isPresent_frameStep (c : Call) (h : c.isPresent = true) : c.isFrameStep = true := by
  simp [Call.isFrameStep, h]

theorem frameSteps_append (a b : List Call) :
    frameSteps (a ++ b) = frameSteps a ++ frameSteps b := by
  simp [frameSteps]

theorem frameSteps_map_depth (l : List (Option DepthStencilState)) :
    frameSteps (l.map Call.SetDepthStencilState) = [] := by
  induction l with
  | nil => rfl
  | cons a l ih => exact ih

theorem frameSteps_map_rasterizer (l : List (Option RasterizerState)) :
    frameSteps (l.map Call.SetRasterizerState) = [] := by
  induction l with
  | nil => rfl
  | cons a l ih => exact ih

namespace CameraApplication

theorem frameSteps_uiCalls (ui : UiInput) (s : CameraApplication) :
    frameSteps (uiCalls ui s) = [Call.ImGui_ImplDX11_RenderDrawData] := by
  cases hopen : ui.beginOpen
  · simp only [uiCalls, hopen, Bool.false_eq_true, if_false, frameSteps_append]
    rfl
  · simp only [uiCalls, windowCalls, hopen, if_true, frameSteps_append, frameSteps_map_depth,
      frameSteps_map_rasterizer]
    rfl

theorem frameSteps_renderCalls (ui : UiInput) (s : CameraApplication) :
    frameSteps (renderCalls ui s) =
      [Call.Clear s._renderTarget s._depthStencilView, Call.SetPipeline,
        Call.SetVertexBuffer Member._modelVertices, Call.SetIndexBuffer Member._modelIndices,
        Call.DrawIndexed, Call.ImGui_ImplDX11_RenderDrawData, Call.Present 1 0] := by
  simp only [renderCalls, frameSteps_append, frameSteps_uiCalls]
  rfl

end CameraApplication

namespace DebugLayerApplication

theorem debugLayer_Render_calls (r : Traced DebugLayerApplication) :
    callsOf (callsSince r (Render r)) =
      [Call.RSSetViewports, Call.IASetPrimitiveTopology, Call.ShaderCollection_ApplyToContext,
        Call.OMSetRenderTargets none, Call.ClearRenderTargetView r.app._renderTarget,
        Call.OMSetRenderTargets r.app._renderTarget, Call.ShaderCollection_GetLayoutByteSize,
        Call.IASetVertexBuffers Member._triangleVertices, Call.Draw 3 0, Call.Present 1 0] := by
  simp [Render, emit, callsSince, callsOf]

end DebugLayerApplication

/-- C8 (as stated) fails in `DebugLayerApplication::Render`: the shader bind
(`ShaderCollection::ApplyToContext`) is issued before the render-target clear. -/
theorem C8_debugLayer_binds_before_clear :
    ¬ clearBindDrawPresent (callsOf (callsSince DebugLayerApplication.running
        (DebugLayerApplication.Render DebugLayerApplication.running))) := by
  decide

/-- C8 (amended): every `CameraApplication::Render` issues clear → binds → draw → present in
that order: its clears, binds, draws and present are exactly one Clear, then SetPipeline,
SetVertexBuffer, SetIndexBuffer, then DrawIndexed, then the overlay draw, then Present.
Every `DebugLayerApplication::Render` issues the shader bind
(ApplyToContext) first, then the clear, then the vertex-buffer bind, then Draw, then Present:
all binds precede the draw and the draw precedes Present, but the clear follows the shader
bind. -/
theorem C8_frame_order :
    (∀ (ui : UiInput) (r : Traced CameraApplication),
      clearBindDrawPresent (callsOf (callsSince r (CameraApplication.Render ui r))) ∧
      frameSteps (callsOf (callsSince r (CameraApplication.Render ui r))) =
        [Call.Clear r.app._renderTarget r.app._depthStencilView, Call.SetPipeline,
          Call.SetVertexBuffer Member._modelVertices, Call.SetIndexBuffer Member._modelIndices,
          Call.DrawIndexed, Call.ImGui_ImplDX11_RenderDrawData, Call.Present 1 0]) ∧
    (∀ r : Traced DebugLayerApplication,
      frameSteps (callsOf (callsSince r (DebugLayerApplication.Render r))) =
        [Call.ShaderCollection_ApplyToContext, Call.ClearRenderTargetView r.app._renderTarget,
          Call.IASetVertexBuffers Member._triangleVertices, Call.Draw 3 0, Call.Present 1 0] ∧
      Precedes Call.isShaderBind Call.isClear
        (callsOf (callsSince r (DebugLayerApplication.Render r))) ∧
      Precedes Call.isClear Call.isBufferBind
        (callsOf (callsSince r (DebugLayerApplication.Render r))) ∧
      Precedes Call.isBind Call.isDraw
        (callsOf (callsSince r (DebugLayerApplication.Render r))) ∧
      Precedes Call.isDraw Call.isPresent
        (callsOf (callsSince r (DebugLayerApplication.Render r)))) := by
  constructor
  · intro ui r
    rw [CameraApplication.Render_calls]
    refine ⟨?_, CameraApplication.frameSteps_renderCalls ui r.app⟩
    unfold clearBindDrawPresent
    rw [← countP_frameSteps _ isClear_frameStep, ← countP_frameSteps _ isDraw_frameStep,
      ← countP_frameSteps _ isPresent_frameStep,
      ← Precedes_frameSteps _ _ isClear_frameStep isBind_frameStep,
      ← Precedes_frameSteps _ _ isBind_frameStep isDraw_frameStep,
      ← Precedes_frameSteps _ _ isDraw_frameStep isPresent_frameStep,
      CameraApplication.frameSteps_renderCalls]
    refine ⟨rfl, rfl, rfl, ?_, ?_, ?_⟩ <;>
      simp [Precedes, Call.isClear, Call.isBind, Call.isShaderBind, Call.isBufferBind,
        Call.isDraw, Call.isPresent]
  · intro r
    rw [DebugLayerApplication.debugLayer_Render_calls]
    refine ⟨rfl, ?_, ?_, ?_, ?_⟩ <;>
      simp [Precedes, Call.isClear, Call.isBind, Call.isShaderBind, Call.isBufferBind,
        Call.isDraw, Call.isPresent]

/-- C9: in every `CameraApplication::Render` the overlay draw
(`ImGui_ImplDX11_RenderDrawData`) is issued once, after `DrawIndexed` and before `Present`;
`Present` is the last call of the frame and is made with sync interval 1.
`DebugLayerApplication::Render` also ends with `Present` at interval 1. -/
theorem C9_overlay_then_present :
    (∀ (ui : UiInput) (r : Traced CameraApplication),
      frameSteps (callsOf (callsSince r (CameraApplication.Render ui r))) =
        [Call.Clear r.app._renderTarget r.app._depthStencilView, Call.SetPipeline,
          Call.SetVertexBuffer Member._modelVertices, Call.SetIndexBuffer Member._modelIndices,
          Call.DrawIndexed, Call.ImGui_ImplDX11_RenderDrawData, Call.Present 1 0] ∧
      (callsOf (callsSince r (CameraApplication.Render ui r))).countP Call.isOverlayDraw = 1 ∧
      Precedes Call.isDraw Call.isOverlayDraw
        (callsOf (callsSince r (CameraApplication.Render ui r))) ∧
      Precedes Call.isOverlayDraw Call.isPresent
        (callsOf (callsSince r (CameraApplication.Render ui r))) ∧
      (callsOf (callsSince r (CameraApplication.Render ui r))).getLast? =
        some (Call.Present 1 0)) ∧
    (∀ r : Traced DebugLayerApplication,
      (callsOf (callsSince r (DebugLayerApplication.Render r))).countP Call.isPresent = 1 ∧
      (callsOf (callsSince r (DebugLayerApplication.Render r))).getLast? =
        some (Call.Present 1 0)) := by
  constructor
  · intro ui r
    rw [CameraApplication.Render_calls]
    refine ⟨CameraApplication.frameSteps_renderCalls ui r.app, ?_, ?_, ?_, ?_⟩
    · rw [← countP_frameSteps _ isOverlayDraw_frameStep,
        CameraApplication.frameSteps_renderCalls]
      rfl
    · rw [← Precedes_frameSteps _ _ isDraw_frameStep isOverlayDraw_frameStep,
        CameraApplication.frameSteps_renderCalls]
      simp [Precedes, Call.isDraw, Call.isOverlayDraw]
    · rw [← Precedes_frameSteps _ _ isOverlayDraw_frameStep isPresent_frameStep,
        CameraApplication.frameSteps_renderCalls]
      simp [Precedes, Call.isPresent, Call.isOverlayDraw]
    · unfold CameraApplication.renderCalls
      exact List.getLast?_concat _
  · intro r
    rw [DebugLayerApplication.debugLayer_Render_calls]
    exact ⟨rfl, rfl⟩

/-! ## Resize failure -/

/-- C3 (as stated) fails: an `OnResize` whose `ResizeBuffers` fails does not leave the
application with the views it rendered into before the call.  Both applications release their
swapchain-dependent views before `ResizeBuffers` is called and return without creating them
again. -/
theorem C3_views_lost_on_failure :
    ¬ (DebugLayerApplication.heldViews
          (DebugLayerApplication.OnResize 800 600 false (fun _ => true)
            DebugLayerApplication.running).app =
        DebugLayerApplication.heldViews DebugLayerApplication.running.app) ∧
    ¬ (CameraApplication.heldViews
          (CameraApplication.OnResize 800 600 false (fun _ => true)
            CameraApplication.initialized).app =
        CameraApplication.heldViews CameraApplication.initialized.app) := by
  constructor <;> decide

/-- C3 (amended): when `ResizeBuffers` fails, `OnResize` makes exactly the calls
Application::OnResize, Flush, DestroySwapchainResources (which resets the views),
ResizeBuffers and one diagnostic, in that order: one diagnostic, one `ResizeBuffers`, no
notification of a dependent.  The only members that change are the swapchain-dependent views,
which are left empty; in `CameraApplication` the ImGui display size keeps its old value.  The
next `Render` therefore clears empty views. -/
theorem C3_resize_failure (width height : Int) (hr : Nat → Bool) :
    (∀ r : Traced DebugLayerApplication,
      callsOf (callsSince r (DebugLayerApplication.OnResize width height false hr r)) =
        [Call.Application_OnResize width height, Call.Flush, Call.DestroySwapchainResources,
          Call.Reset Member._renderTarget,
          Call.ResizeBuffers 0 width height DXGI_FORMAT.B8G8R8A8_UNORM 0,
          Call.Log OStream.cerr "D3D11: Failed to recreate swapchain buffers\n"] ∧
      logCount (callsSince r (DebugLayerApplication.OnResize width height false hr r)) = 1 ∧
      resizeBuffersCount
        (callsSince r (DebugLayerApplication.OnResize width height false hr r)) = 1 ∧
      notifyCount (callsSince r (DebugLayerApplication.OnResize width height false hr r)) = 0 ∧
      (callsOf (callsSince r
          (DebugLayerApplication.OnResize width height false hr r))).getLast? =
        some (Call.Log OStream.cerr "D3D11: Failed to recreate swapchain buffers\n") ∧
      (DebugLayerApplication.OnResize width height false hr r).app =
        { r.app with _renderTarget := none } ∧
      DebugLayerApplication.heldViews
        (DebugLayerApplication.OnResize width height false hr r).app = [] ∧
      frameSteps (callsOf (callsSince
          (DebugLayerApplication.OnResize width height false hr r)
          (DebugLayerApplication.Render
            (DebugLayerApplication.OnResize width height false hr r)))) =
        [Call.ShaderCollection_ApplyToContext, Call.ClearRenderTargetView none,
          Call.IASetVertexBuffers Member._triangleVertices, Call.Draw 3 0, Call.Present 1 0]) ∧
    (∀ r : Traced CameraApplication,
      callsOf (callsSince r (CameraApplication.OnResize width height false hr r)) =
        [Call.Application_OnResize width height, Call.Flush, Call.DestroySwapchainResources,
          Call.Reset Member._depthStencilView, Call.Reset Member._renderTarget,
          Call.ResizeBuffers 0 width height DXGI_FORMAT.B8G8R8A8_UNORM 0,
          Call.Log OStream.cout "D3D11: Failed to recreate swapchain buffers\n"] ∧
      logCount (callsSince r (CameraApplication.OnResize width height false hr r)) = 1 ∧
      resizeBuffersCount
        (callsSince r (CameraApplication.OnResize width height false hr r)) = 1 ∧
      notifyCount (callsSince r (CameraApplication.OnResize width height false hr r)) = 0 ∧
      (callsOf (callsSince r
          (CameraApplication.OnResize width height false hr r))).getLast? =
        some (Call.Log OStream.cout "D3D11: Failed to recreate swapchain buffers\n") ∧
      (CameraApplication.OnResize width height false hr r).app =
        { r.app with _renderTarget := none, _depthStencilView := none } ∧
      (CameraApplication.OnResize width height false hr r).app.imGuiDisplaySize =
        r.app.imGuiDisplaySize ∧
      CameraApplication.heldViews (CameraApplication.OnResize width height false hr r).app =
        [] ∧
      ∀ ui : UiInput,
        frameSteps (callsOf (callsSince
            (CameraApplication.OnResize width height false hr r)
            (CameraApplication.Render ui
              (CameraApplication.OnResize width height false hr r)))) =
          [Call.Clear none none, Call.SetPipeline,
            Call.SetVertexBuffer Member._modelVertices,
            Call.SetIndexBuffer Member._modelIndices, Call.DrawIndexed,
            Call.ImGui_ImplDX11_RenderDrawData, Call.Present 1 0]) := by
  constructor
  · intro r
    have happ : (DebugLayerApplication.OnResize width height false hr r).app =
        { r.app with _renderTarget := none } := by
      simp [DebugLayerApplication.OnResize, DebugLayerApplication.DestroySwapchainResources,
        DebugLayerApplication.emit, DebugLayerApplication.assign]
    refine ⟨?_, ?_, ?_, ?_, ?_, happ, ?_, ?_⟩
    · simp [callsSince, callsOf, DebugLayerApplication.OnResize,
        DebugLayerApplication.DestroySwapchainResources, DebugLayerApplication.emit,
        DebugLayerApplication.assign]
    · simp [callsSince, DebugLayerApplication.OnResize,
        DebugLayerApplication.DestroySwapchainResources, DebugLayerApplication.emit,
        DebugLayerApplication.assign]
      rfl
    · simp [callsSince, DebugLayerApplication.OnResize,
        DebugLayerApplication.DestroySwapchainResources, DebugLayerApplication.emit,
        DebugLayerApplication.assign]
      rfl
    · simp [callsSince, DebugLayerApplication.OnResize,
        DebugLayerApplication.DestroySwapchainResources, DebugLayerApplication.emit,
        DebugLayerApplication.assign]
      rfl
    · simp [callsSince, DebugLayerApplication.OnResize,
        DebugLayerApplication.DestroySwapchainResources, DebugLayerApplication.emit,
        DebugLayerApplication.assign]
      rfl
    · rw [happ]
      rfl
    · rw [DebugLayerApplication.debugLayer_Render_calls, happ]
      rfl
  · intro r
    have happ : (CameraApplication.OnResize width height false hr r).app =
        { r.app with _renderTarget := none, _depthStencilView := none } := by
      simp [CameraApplication.OnResize, CameraApplication.DestroySwapchainResources,
        CameraApplication.emit_eq, CameraApplication.assign_eq]
    refine ⟨?_, ?_, ?_, ?_, ?_, happ, ?_, ?_, ?_⟩
    · simp [callsSince, callsOf, CameraApplication.OnResize,
        CameraApplication.DestroySwapchainResources, CameraApplication.emit_eq,
        CameraApplication.assign_eq]
    · simp [callsSince, CameraApplication.OnResize,
        CameraApplication.DestroySwapchainResources, CameraApplication.emit_eq,
        CameraApplication.assign_eq]
      rfl
    · simp [callsSince, CameraApplication.OnResize,
        CameraApplication.DestroySwapchainResources, CameraApplication.emit_eq,
        CameraApplication.assign_eq]
      rfl
    · simp [callsSince, CameraApplication.OnResize,
        CameraApplication.DestroySwapchainResources, CameraApplication.emit_eq,
        CameraApplication.assign_eq]
      rfl
    · simp [callsSince, CameraApplication.OnResize,
        CameraApplication.DestroySwapchainResources, CameraApplication.emit_eq,
        CameraApplication.assign_eq]
      rfl
    · rw [happ]
    · rw [happ]
      rfl
    · intro ui
      rw [CameraApplication.Render_calls, CameraApplication.frameSteps_renderCalls, happ]

/-! ## Shutdown -/

theorem heldMember_none {α : Type} (m : Member) : heldMember m (none : Option α) = [] := rfl

namespace DebugLayerApplication

theorem debugLayer_Initialize_fst (ndebug baseOk : Bool) (w h : Int) (hr hrSwap : Nat → Bool)
    (r : Traced DebugLayerApplication) :
    (Initialize ndebug baseOk w h hr hrSwap r).1 =
      (baseOk && hr 0 && hr 1 && (ndebug || hr 2) && hr 3) := by
  unfold Initialize
  cases baseOk
  · simp
  cases h0 : hr 0
  · simp
  cases h1 : hr 1
  · simp
  cases h3 : hr 3 <;> cases ndebug <;> cases h2 : hr 2 <;> simp [queryDebugLayer, h2]

end DebugLayerApplication

namespace CameraApplication

theorem camera_Initialize_fst (ndebug baseOk : Bool) (w h : Int) (hr hrSwap : Nat → Bool)
    (r : Traced CameraApplication) :
    (Initialize ndebug baseOk w h hr hrSwap r).1 = (baseOk && hr 0 && hr 1 && hr 2 && hr 3) := by
  unfold Initialize
  cases baseOk
  · simp
  cases h0 : hr 0
  · simp
  cases h1 : hr 1
  · simp
  cases h2 : hr 2
  · simp
  cases h3 : hr 3 <;> simp

end CameraApplication

/-- C11: with every call that `Initialize` checks succeeding and `GetBuffer` failing inside
`CreateSwapchainResources`, `Initialize` of both applications still returns true: the failure
is logged once, the views stay empty, and startup is not aborted. -/
theorem C11_initialize_ignores_swapchain_failure :
    (DebugLayerApplication.Initialize false true 1280 720 (fun _ => true) (fun _ => false)
      DebugLayerApplication.constructed).1 = true ∧
    logsOf (DebugLayerApplication.Initialize false true 1280 720 (fun _ => true)
      (fun _ => false) DebugLayerApplication.constructed).2.trace =
      [(OStream.cerr, "D3D11: Failed to get back buffer from swapchain\n")] ∧
    (DebugLayerApplication.Initialize false true 1280 720 (fun _ => true) (fun _ => false)
      DebugLayerApplication.constructed).2.app._renderTarget = none ∧
    (CameraApplication.Initialize false true 1280 720 (fun _ => true) (fun _ => false)
      CameraApplication.constructed).1 = true ∧
    logsOf (CameraApplication.Initialize false true 1280 720 (fun _ => true)
      (fun _ => false) CameraApplication.constructed).2.trace =
      [(OStream.cout, "D3D11: Failed to get back buffer from swapchain\n")] ∧
    (CameraApplication.Initialize false true 1280 720 (fun _ => true) (fun _ => false)
      CameraApplication.constructed).2.app._renderTarget = none ∧
    (CameraApplication.Initialize false true 1280 720 (fun _ => true) (fun _ => false)
      CameraApplication.constructed).2.app._depthStencilView = none := by
  decide
theorem allOk_two (hr : Nat → Bool) : allOk hr 2 = (hr 0 && hr 1) := by
  simp [allOk, List.range_succ]

theorem allOk_four (hr : Nat → Bool) : allOk hr 4 = (hr 0 && hr 1 && hr 2 && hr 3) := by
  simp [allOk, List.range_succ, Bool.and_assoc]

namespace DebugLayerApplication

theorem debugLayer_CreateSwapchainResources_fst (hr : Nat → Bool)
    (r : Traced DebugLayerApplication) : (CreateSwapchainResources hr r).1 = allOk hr 2 := by
  rw [allOk_two]
  unfold CreateSwapchainResources
  cases h0 : hr 0
  · simp
  cases h1 : hr 1 <;> simp

theorem debugLayer_CreateSwapchainResources_steps (hr : Nat → Bool)
    (r : Traced DebugLayerApplication) (k : Nat) (hk : k < 2)
    (hprev : ∀ j, j < k → hr j = true) (hfail : hr k = false) :
    swapchainStepCount (callsSince r (CreateSwapchainResources hr r).2) = k + 1 ∧
    logsOf (callsSince r (CreateSwapchainResources hr r).2) =
      [(OStream.cerr, swapchainStepMessage k)] := by
  interval_cases k <;>
    (simp [CreateSwapchainResources, emit, assign, hprev, hfail, callsSince]
     exact ⟨rfl, rfl⟩)

end DebugLayerApplication

namespace CameraApplication

theorem camera_CreateSwapchainResources_fst (hr : Nat → Bool)
    (r : Traced CameraApplication) : (CreateSwapchainResources hr r).1 = allOk hr 4 := by
  rw [allOk_four]
  unfold CreateSwapchainResources
  cases h0 : hr 0
  · simp
  cases h1 : hr 1
  · simp
  cases h2 : hr 2
  · simp
  cases h3 : hr 3 <;> simp

theorem camera_CreateSwapchainResources_steps (hr : Nat → Bool)
    (r : Traced CameraApplication) (k : Nat) (hk : k < 4)
    (hprev : ∀ j, j < k → hr j = true) (hfail : hr k = false) :
    swapchainStepCount (callsSince r (CreateSwapchainResources hr r).2) = k + 1 ∧
    logsOf (callsSince r (CreateSwapchainResources hr r).2) =
      [(OStream.cout, swapchainStepMessage k)] := by
  interval_cases k <;>
    (simp [CreateSwapchainResources, emit_eq, assign_eq, hprev, hfail, callsSince]
     exact ⟨rfl, rfl⟩)

end CameraApplication

theorem swapchainStepMessage_injective (i j : Nat) (hi : i < 4) (hj : j < 4) (hij : i ≠ j) :
    swapchainStepMessage i ≠ swapchainStepMessage j := by
  interval_cases i <;> interval_cases j <;> first | exact absurd rfl hij | decide

/-- C12: `CreateSwapchainResources` returns true exactly when every step succeeds (two steps
in `DebugLayerApplication`, four in `CameraApplication`); when step `k` is the first to fail
it returns false after `k + 1` native calls, so the later steps are not executed, and it
writes exactly one message, the one of step `k`; the messages of different steps differ. -/
theorem C12_createSwapchainResources (hr : Nat → Bool) :
    (∀ r : Traced DebugLayerApplication,
      ((DebugLayerApplication.CreateSwapchainResources hr r).1 = true ↔
        ∀ k, k < 2 → hr k = true) ∧
      (∀ k, k < 2 → (∀ j, j < k → hr j = true) → hr k = false →
        (DebugLayerApplication.CreateSwapchainResources hr r).1 = false ∧
        swapchainStepCount
          (callsSince r (DebugLayerApplication.CreateSwapchainResources hr r).2) = k + 1 ∧
        logsOf (callsSince r (DebugLayerApplication.CreateSwapchainResources hr r).2) =
          [(OStream.cerr, swapchainStepMessage k)])) ∧
    (∀ r : Traced CameraApplication,
      ((CameraApplication.CreateSwapchainResources hr r).1 = true ↔
        ∀ k, k < 4 → hr k = true) ∧
      (∀ k, k < 4 → (∀ j, j < k → hr j = true) → hr k = false →
        (CameraApplication.CreateSwapchainResources hr r).1 = false ∧
        swapchainStepCount
          (callsSince r (CameraApplication.CreateSwapchainResources hr r).2) = k + 1 ∧
        logsOf (callsSince r (CameraApplication.CreateSwapchainResources hr r).2) =
          [(OStream.cout, swapchainStepMessage k)])) ∧
    (∀ i j, i < 4 → j < 4 → i ≠ j → swapchainStepMessage i ≠ swapchainStepMessage j) := by
  refine ⟨?_, ?_, swapchainStepMessage_injective⟩
  · intro r
    refine ⟨?_, ?_⟩
    · rw [DebugLayerApplication.debugLayer_CreateSwapchainResources_fst, allOk_iff]
    · intro k hk hprev hfail
      refine ⟨?_,
        DebugLayerApplication.debugLayer_CreateSwapchainResources_steps hr r k hk hprev hfail⟩
      rw [DebugLayerApplication.debugLayer_CreateSwapchainResources_fst, ← Bool.not_eq_true,
        allOk_iff]
      intro hall
      rw [hall k hk] at hfail
      exact Bool.noConfusion hfail
  · intro r
    refine ⟨?_, ?_⟩
    · rw [CameraApplication.camera_CreateSwapchainResources_fst, allOk_iff]
    · intro k hk hprev hfail
      refine ⟨?_,
        CameraApplication.camera_CreateSwapchainResources_steps hr r k hk hprev hfail⟩
      rw [CameraApplication.camera_CreateSwapchainResources_fst, ← Bool.not_eq_true,
        allOk_iff]
      intro hall
      rw [hall k hk] at hfail
      exact Bool.noConfusion hfail

/-- C13: `DestroySwapchainResources` has no condition: from every state it empties
`_renderTarget` (and `_depthStencilView` in `CameraApplication`) and changes no other member;
calling it a second time leaves the object as the first call left it. -/
theorem C13_destroySwapchainResources :
    (∀ r : Traced DebugLayerApplication,
      (DebugLayerApplication.DestroySwapchainResources r).app =
        { r.app with _renderTarget := none } ∧
      DebugLayerApplication.heldViews (DebugLayerApplication.DestroySwapchainResources r).app =
        [] ∧
      (DebugLayerApplication.DestroySwapchainResources
        (DebugLayerApplication.DestroySwapchainResources r)).app =
        (DebugLayerApplication.DestroySwapchainResources r).app) ∧
    (∀ r : Traced CameraApplication,
      (CameraApplication.DestroySwapchainResources r).app =
        { r.app with _renderTarget := none, _depthStencilView := none } ∧
      CameraApplication.heldViews (CameraApplication.DestroySwapchainResources r).app = [] ∧
      (CameraApplication.DestroySwapchainResources
        (CameraApplication.DestroySwapchainResources r)).app =
        (CameraApplication.DestroySwapchainResources r).app) := by
  constructor
  · intro r
    simp [DebugLayerApplication.DestroySwapchainResources, DebugLayerApplication.emit,
      DebugLayerApplication.assign, DebugLayerApplication.heldViews]
  · intro r
    simp [CameraApplication.DestroySwapchainResources, CameraApplication.emit_eq,
      CameraApplication.assign_eq, CameraApplication.heldViews]

/-! ## Diagnostics -/

theorem Appends.refl {σ : Type} (P : Call → Bool) (r : Traced σ) : Appends P r r :=
  ⟨[], by simp, by simp⟩

theorem Appends.callsSince {σ : Type} {P : Call → Bool} {r t : Traced σ} (h : Appends P r t) :
    ∀ e ∈ callsSince r t, P e.call = true := by
  obtain ⟨l, hl, hP⟩ := h
  rw [callsSince_append r t l hl]
  exact hP

namespace CameraApplication

theorem camera_appends_emit {P : Call → Bool} (c : Call) (hc : P c = true)
    {r t : Traced CameraApplication} (h : Appends P r t) : Appends P r (emit c t) := by
  obtain ⟨l, hl, hP⟩ := h
  refine ⟨l ++ [⟨c, heldViews t.app⟩], ?_, ?_⟩
  · rw [emit_eq, hl, List.append_assoc]
  · intro e he
    rcases List.mem_append.1 he with h1 | h1
    · exact hP e h1
    · rw [List.mem_singleton.1 h1]
      exact hc

theorem camera_appends_assign {P : Call → Bool} (f : CameraApplication → CameraApplication)
    {r t : Traced CameraApplication} (h : Appends P r t) : Appends P r (assign f t) := h

theorem camera_CreateSwapchainResources_appends (hr : Nat → Bool)
    {r t : Traced CameraApplication} (h : Appends (Call.loggedTo OStream.cout) r t) :
    Appends (Call.loggedTo OStream.cout) r (CreateSwapchainResources hr t).2 := by
  unfold CreateSwapchainResources
  dsimp only []
  repeat' (first
    | with_reducible exact h
    | rfl
    | with_reducible apply camera_appends_assign
    | with_reducible apply camera_appends_emit
    | split)

theorem camera_CreateDepthStencilState_appends (ok : Bool) (d : D3D11_DEPTH_STENCIL_DESC)
    {r t : Traced CameraApplication} (h : Appends (Call.loggedTo OStream.cout) r t) :
    Appends (Call.loggedTo OStream.cout) r (CreateDepthStencilState ok d t).2 := by
  unfold CreateDepthStencilState
  dsimp only []
  repeat' (first
    | with_reducible exact h
    | rfl
    | with_reducible apply camera_appends_assign
    | with_reducible apply camera_appends_emit
    | split)

theorem camera_CreateRasterizerState_appends (ok : Bool) (d : D3D11_RASTERIZER_DESC)
    {r t : Traced CameraApplication} (h : Appends (Call.loggedTo OStream.cout) r t) :
    Appends (Call.loggedTo OStream.cout) r (CreateRasterizerState ok d t).2 := by
  unfold CreateRasterizerState
  dsimp only []
  repeat' (first
    | with_reducible exact h
    | rfl
    | with_reducible apply camera_appends_assign
    | with_reducible apply camera_appends_emit
    | split)

theorem camera_CreateDepthStencilStates_appends (hr : Nat → Bool)
    {r t : Traced CameraApplication} (h : Appends (Call.loggedTo OStream.cout) r t) :
    Appends (Call.loggedTo OStream.cout) r (CreateDepthStencilStates hr t).2 := by
  unfold CreateDepthStencilStates
  dsimp only []
  by_cases h0 : hr 0 = false
  · rw [if_pos h0]
    repeat' (first
      | with_reducible exact h
      | rfl
      | with_reducible apply camera_appends_assign
      | with_reducible apply camera_appends_emit
      | with_reducible apply camera_CreateDepthStencilState_appends)
  rw [if_neg h0]
  by_cases h1 : hr 1 = false
  · rw [if_pos h1]
    repeat' (first
      | with_reducible exact h
      | rfl
      | with_reducible apply camera_appends_assign
      | with_reducible apply camera_appends_emit
      | with_reducible apply camera_CreateDepthStencilState_appends)
  rw [if_neg h1]
  by_cases h2 : hr 2 = false
  · rw [if_pos h2]
    repeat' (first
      | with_reducible exact h
      | rfl
      | with_reducible apply camera_appends_assign
      | with_reducible apply camera_appends_emit
      | with_reducible apply camera_CreateDepthStencilState_appends)
  rw [if_neg h2]
  by_cases h3 : hr 3 = false
  · rw [if_pos h3]
    repeat' (first
      | with_reducible exact h
      | rfl
      | with_reducible apply camera_appends_assign
      | with_reducible apply camera_appends_emit
      | with_reducible apply camera_CreateDepthStencilState_appends)
  rw [if_neg h3]
  by_cases h4 : hr 4 = false
  · rw [if_pos h4]
    repeat' (first
      | with_reducible exact h
      | rfl
      | with_reducible apply camera_appends_assign
      | with_reducible apply camera_appends_emit
      | with_reducible apply camera_CreateDepthStencilState_appends)
  rw [if_neg h4]
  by_cases h5 : hr 5 = false
  · rw [if_pos h5]
    repeat' (first
      | with_reducible exact h
      | rfl
      | with_reducible apply camera_appends_assign
      | with_reducible apply camera_appends_emit
      | with_reducible apply camera_CreateDepthStencilState_appends)
  rw [if_neg h5]
  by_cases h6 : hr 6 = false
  · rw [if_pos h6]
    repeat' (first
      | with_reducible exact h
      | rfl
      | with_reducible apply camera_appends_assign
      | with_reducible apply camera_appends_emit
      | with_reducible apply camera_CreateDepthStencilState_appends)
  rw [if_neg h6]
  by_cases h7 : hr 7 = false
  · rw [if_pos h7]
    repeat' (first
      | with_reducible exact h
      | rfl
      | with_reducible apply camera_appends_assign
      | with_reducible apply camera_appends_emit
      | with_reducible apply camera_CreateDepthStencilState_appends)
  rw [if_neg h7]
  by_cases h8 : hr 8 = false
  · rw [if_pos h8]
    repeat' (first
      | with_reducible exact h
      | rfl
      | with_reducible apply camera_appends_assign
      | with_reducible apply camera_appends_emit
      | with_reducible apply camera_CreateDepthStencilState_appends)
  rw [if_neg h8]
  repeat' (first
    | with_reducible exact h
    | rfl
    | with_reducible apply camera_appends_assign
    | with_reducible apply camera_appends_emit
    | with_reducible apply camera_CreateDepthStencilState_appends)

theorem camera_CreateRasterizerStates_appends (hr : Nat → Bool)
    {r t : Traced CameraApplication} (h : Appends (Call.loggedTo OStream.cout) r t) :
    Appends (Call.loggedTo OStream.cout) r (CreateRasterizerStates hr t).2 := by
  unfold CreateRasterizerStates
  dsimp only []
  by_cases h0 : hr 0 = false
  · rw [if_pos h0]
    repeat' (first
      | with_reducible exact h
      | rfl
      | with_reducible apply camera_appends_assign
      | with_reducible apply camera_appends_emit
      | with_reducible apply camera_CreateRasterizerState_appends)
  rw [if_neg h0]
  by_cases h1 : hr 1 = false
  · rw [if_pos h1]
    repeat' (first
      | with_reducible exact h
      | rfl
      | with_reducible apply camera_appends_assign
      | with_reducible apply camera_appends_emit
      | with_reducible apply camera_CreateRasterizerState_appends)
  rw [if_neg h1]
  by_cases h2 : hr 2 = false
  · rw [if_pos h2]
    repeat' (first
      | with_reducible exact h
      | rfl
      | with_reducible apply camera_appends_assign
      | with_reducible apply camera_appends_emit
      | with_reducible apply camera_CreateRasterizerState_appends)
  rw [if_neg h2]
  by_cases h3 : hr 3 = false
  · rw [if_pos h3]
    repeat' (first
      | with_reducible exact h
      | rfl
      | with_reducible apply camera_appends_assign
      | with_reducible apply camera_appends_emit
      | with_reducible apply camera_CreateRasterizerState_appends)
  rw [if_neg h3]
  by_cases h4 : hr 4 = false
  · rw [if_pos h4]
    repeat' (first
      | with_reducible exact h
      | rfl
      | with_reducible apply camera_appends_assign
      | with_reducible apply camera_appends_emit
      | with_reducible apply camera_CreateRasterizerState_appends)
  rw [if_neg h4]
  by_cases h5 : hr 5 = false
  · rw [if_pos h5]
    repeat' (first
      | with_reducible exact h
      | rfl
      | with_reducible apply camera_appends_assign
      | with_reducible apply camera_appends_emit
      | with_reducible apply camera_CreateRasterizerState_appends)
  rw [if_neg h5]
  repeat' (first
    | with_reducible exact h
    | rfl
    | with_reducible apply camera_appends_assign
    | with_reducible apply camera_appends_emit
    | with_reducible apply camera_CreateRasterizerState_appends)

theorem camera_Load_appends (hr hrDepth hrRasterizer : Nat → Bool)
    {r t : Traced CameraApplication} (h : Appends (Call.loggedTo OStream.cout) r t) :
    Appends (Call.loggedTo OStream.cout) r (Load hr hrDepth hrRasterizer t).2 := by
  unfold Load
  dsimp only []
  by_cases h0 : hr 0 = false
  · rw [if_pos h0]
    repeat' (first
      | with_reducible exact h
      | rfl
      | with_reducible apply camera_appends_assign
      | with_reducible apply camera_appends_emit)
  rw [if_neg h0]
  by_cases h1 : hr 1 = false
  · rw [if_pos h1]
    repeat' (first
      | with_reducible exact h
      | rfl
      | with_reducible apply camera_appends_assign
      | with_reducible apply camera_appends_emit)
  rw [if_neg h1]
  by_cases h2 : hr 2 = false
  · rw [if_pos h2]
    repeat' (first
      | with_reducible exact h
      | rfl
      | with_reducible apply camera_appends_assign
      | with_reducible apply camera_appends_emit)
  rw [if_neg h2]
  by_cases h3 : hr 3 = false
  · rw [if_pos h3]
    repeat' (first
      | with_reducible exact h
      | rfl
      | with_reducible apply camera_appends_assign
      | with_reducible apply camera_appends_emit)
  rw [if_neg h3]
  by_cases h4 : hr 4 = false
  · rw [if_pos h4]
    repeat' (first
      | with_reducible exact h
      | rfl
      | with_reducible apply camera_appends_assign
      | with_reducible apply camera_appends_emit)
  rw [if_neg h4]
  by_cases h5 : hr 5 = false
  · rw [if_pos h5]
    repeat' (first
      | with_reducible exact h
      | rfl
      | with_reducible apply camera_appends_assign
      | with_reducible apply camera_appends_emit)
  rw [if_neg h5]
  repeat' (first
    | with_reducible exact h
    | rfl
    | with_reducible apply camera_appends_assign
    | with_reducible apply camera_appends_emit
    | with_reducible apply camera_CreateDepthStencilStates_appends
    | with_reducible apply camera_CreateRasterizerStates_appends
    | split)

theorem camera_Initialize_appends (ndebug baseOk : Bool) (w h0 : Int) (hr hrSwap : Nat → Bool)
    {r t : Traced CameraApplication} (h : Appends (Call.loggedTo OStream.cout) r t) :
    Appends (Call.loggedTo OStream.cout) r (Initialize ndebug baseOk w h0 hr hrSwap t).2 := by
  unfold Initialize InitializeImGui
  dsimp only []
  repeat' (first
    | with_reducible exact h
    | rfl
    | with_reducible apply camera_appends_assign
    | with_reducible apply camera_appends_emit
    | with_reducible apply camera_CreateSwapchainResources_appends
    | split)

theorem camera_OnResize_appends (width height : Int) (ok : Bool) (hr : Nat → Bool)
    {r t : Traced CameraApplication} (h : Appends (Call.loggedTo OStream.cout) r t) :
    Appends (Call.loggedTo OStream.cout) r (OnResize width height ok hr t) := by
  unfold OnResize DestroySwapchainResources
  dsimp only []
  repeat' (first
    | with_reducible exact h
    | rfl
    | with_reducible apply camera_appends_assign
    | with_reducible apply camera_appends_emit
    | with_reducible apply camera_CreateSwapchainResources_appends
    | split)

end CameraApplication

namespace DebugLayerApplication

theorem debugLayer_appends_emit {P : Call → Bool} (c : Call) (hc : P c = true)
    {r t : Traced DebugLayerApplication} (h : Appends P r t) : Appends P r (emit c t) := by
  obtain ⟨l, hl, hP⟩ := h
  refine ⟨l ++ [⟨c, heldViews t.app⟩], ?_, ?_⟩
  · show t.trace ++ _ = _
    rw [hl, List.append_assoc]
  · intro e he
    rcases List.mem_append.1 he with h1 | h1
    · exact hP e h1
    · rw [List.mem_singleton.1 h1]
      exact hc

theorem debugLayer_appends_assign {P : Call → Bool}
    (f : DebugLayerApplication → DebugLayerApplication)
    {r t : Traced DebugLayerApplication} (h : Appends P r t) : Appends P r (assign f t) := h

theorem debugLayer_CreateSwapchainResources_appends (hr : Nat → Bool)
    {r t : Traced DebugLayerApplication} (h : Appends (Call.loggedTo OStream.cerr) r t) :
    Appends (Call.loggedTo OStream.cerr) r (CreateSwapchainResources hr t).2 := by
  unfold CreateSwapchainResources
  dsimp only []
  repeat' (first
    | with_reducible exact h
    | rfl
    | with_reducible apply debugLayer_appends_assign
    | with_reducible apply debugLayer_appends_emit
    | split)

theorem debugLayer_queryDebugLayer_appends (ndebug ok : Bool)
    {r t : Traced DebugLayerApplication} (h : Appends (Call.loggedTo OStream.cerr) r t) :
    Appends (Call.loggedTo OStream.cerr) r (queryDebugLayer ndebug ok t).2 := by
  unfold queryDebugLayer
  dsimp only []
  repeat' (first
    | with_reducible exact h
    | rfl
    | with_reducible apply debugLayer_appends_assign
    | with_reducible apply debugLayer_appends_emit
    | split)

theorem debugLayer_Initialize_appends (ndebug baseOk : Bool) (w h0 : Int)
    (hr hrSwap : Nat → Bool)
    {r t : Traced DebugLayerApplication} (h : Appends (Call.loggedTo OStream.cerr) r t) :
    Appends (Call.loggedTo OStream.cerr) r (Initialize ndebug baseOk w h0 hr hrSwap t).2 := by
  unfold Initialize
  dsimp only []
  repeat' (first
    | with_reducible exact h
    | rfl
    | with_reducible apply debugLayer_appends_assign
    | with_reducible apply debugLayer_appends_emit
    | with_reducible apply debugLayer_CreateSwapchainResources_appends
    | with_reducible apply debugLayer_queryDebugLayer_appends
    | split)

theorem debugLayer_Load_appends (hr : Nat → Bool)
    {r t : Traced DebugLayerApplication} (h : Appends (Call.loggedTo OStream.cerr) r t) :
    Appends (Call.loggedTo OStream.cerr) r (Load hr t).2 := by
  unfold Load
  dsimp only []
  repeat' (first
    | with_reducible exact h
    | rfl
    | with_reducible apply debugLayer_appends_assign
    | with_reducible apply debugLayer_appends_emit
    | split)

theorem debugLayer_OnResize_appends (width height : Int) (ok : Bool) (hr : Nat → Bool)
    {r t : Traced DebugLayerApplication} (h : Appends (Call.loggedTo OStream.cerr) r t) :
    Appends (Call.loggedTo OStream.cerr) r (OnResize width height ok hr t) := by
  unfold OnResize DestroySwapchainResources
  dsimp only []
  repeat' (first
    | with_reducible exact h
    | rfl
    | with_reducible apply debugLayer_appends_assign
    | with_reducible apply debugLayer_appends_emit
    | with_reducible apply debugLayer_CreateSwapchainResources_appends
    | split)

end DebugLayerApplication

/-- C14 (as stated) fails in `CameraApplication`: the failure message of `OnResize` is
written to `std::cout`, not to the standard error stream. -/
theorem C14_camera_logs_to_cout :
    ¬ allLoggedTo OStream.cerr (callsSince CameraApplication.initialized
        (CameraApplication.OnResize 800 600 false (fun _ => true)
          CameraApplication.initialized)) := by
  decide

/-- C14 (amended): every failure message written by `Initialize`, `Load`,
`CreateSwapchainResources` and `OnResize` of `DebugLayerApplication` goes to `std::cerr`, every
failure message written by `Initialize`, `Load`, `CreateSwapchainResources`, `OnResize`,
`CreateDepthStencilStates` and `CreateRasterizerStates` of `CameraApplication` goes to
`std::cout`, and each of them begins with `DXGI: `, `D3D11: ` or `PipelineFactory: `. -/
theorem C14_diagnostics :
    (∀ (ndebug baseOk : Bool) (w h : Int) (hr hrSwap : Nat → Bool)
        (r : Traced DebugLayerApplication),
      allLoggedTo OStream.cerr (callsSince r
        (DebugLayerApplication.Initialize ndebug baseOk w h hr hrSwap r).2)) ∧
    (∀ (hr : Nat → Bool) (r : Traced DebugLayerApplication),
      allLoggedTo OStream.cerr (callsSince r (DebugLayerApplication.Load hr r).2)) ∧
    (∀ (hr : Nat → Bool) (r : Traced DebugLayerApplication),
      allLoggedTo OStream.cerr
        (callsSince r (DebugLayerApplication.CreateSwapchainResources hr r).2)) ∧
    (∀ (w h : Int) (ok : Bool) (hr : Nat → Bool) (r : Traced DebugLayerApplication),
      allLoggedTo OStream.cerr (callsSince r (DebugLayerApplication.OnResize w h ok hr r))) ∧
    (∀ (ndebug baseOk : Bool) (w h : Int) (hr hrSwap : Nat → Bool)
        (r : Traced CameraApplication),
      allLoggedTo OStream.cout (callsSince r
        (CameraApplication.Initialize ndebug baseOk w h hr hrSwap r).2)) ∧
    (∀ (hr hrDepth hrRasterizer : Nat → Bool) (r : Traced CameraApplication),
      allLoggedTo OStream.cout
        (callsSince r (CameraApplication.Load hr hrDepth hrRasterizer r).2)) ∧
    (∀ (hr : Nat → Bool) (r : Traced CameraApplication),
      allLoggedTo OStream.cout
        (callsSince r (CameraApplication.CreateSwapchainResources hr r).2)) ∧
    (∀ (w h : Int) (ok : Bool) (hr : Nat → Bool) (r : Traced CameraApplication),
      allLoggedTo OStream.cout (callsSince r (CameraApplication.OnResize w h ok hr r))) ∧
    (∀ (hr : Nat → Bool) (r : Traced CameraApplication),
      allLoggedTo OStream.cout
        (callsSince r (CameraApplication.CreateDepthStencilStates hr r).2)) ∧
    (∀ (hr : Nat → Bool) (r : Traced CameraApplication),
      allLoggedTo OStream.cout
        (callsSince r (CameraApplication.CreateRasterizerStates hr r).2)) := by
  refine ⟨?_, ?_, ?_, ?_, ?_, ?_, ?_, ?_, ?_, ?_⟩
  · intro ndebug baseOk w h hr hrSwap r
    exact (DebugLayerApplication.debugLayer_Initialize_appends ndebug baseOk w h hr hrSwap
      (Appends.refl _ r)).callsSince
  · intro hr r
    exact (DebugLayerApplication.debugLayer_Load_appends hr (Appends.refl _ r)).callsSince
  · intro hr r
    exact (DebugLayerApplication.debugLayer_CreateSwapchainResources_appends hr
      (Appends.refl _ r)).callsSince
  · intro w h ok hr r
    exact (DebugLayerApplication.debugLayer_OnResize_appends w h ok hr
      (Appends.refl _ r)).callsSince
  · intro ndebug baseOk w h hr hrSwap r
    exact (CameraApplication.camera_Initialize_appends ndebug baseOk w h hr hrSwap
      (Appends.refl _ r)).callsSince
  · intro hr hrDepth hrRasterizer r
    exact (CameraApplication.camera_Load_appends hr hrDepth hrRasterizer
      (Appends.refl _ r)).callsSince
  · intro hr r
    exact (CameraApplication.camera_CreateSwapchainResources_appends hr
      (Appends.refl _ r)).callsSince
  · intro w h ok hr r
    exact (CameraApplication.camera_OnResize_appends w h ok hr (Appends.refl _ r)).callsSince
  · intro hr r
    exact (CameraApplication.camera_CreateDepthStencilStates_appends hr
      (Appends.refl _ r)).callsSince
  · intro hr r
    exact (CameraApplication.camera_CreateRasterizerStates_appends hr
      (Appends.refl _ r)).callsSince

/-! ## The UI window -/

theorem countP_map_of_false {α : Type} (p : Call → Bool) (f : α → Call)
    (h : ∀ x, p (f x) = false) (l : List α) : (l.map f).countP p = 0 := by
  induction l with
  | nil => rfl
  | cons a l ih => simp [List.countP_cons, h a, ih]

namespace CameraApplication

theorem countP_windowCalls (p : Call → Bool)
    (hd : ∀ st, p (Call.SetDepthStencilState st) = false)
    (hs : ∀ st, p (Call.SetRasterizerState st) = false) (ui : UiInput)
    (s : CameraApplication) :
    (windowCalls ui s).countP p =
      [Call.ImGui_Checkbox "Toggle Rotation", Call.ImGui_TextUnformatted "Depth State",
        Call.ImGui_RadioButton "Disabled" 0, Call.ImGui_RadioButton "Less" 1,
        Call.ImGui_RadioButton "LessEqual" 2, Call.ImGui_RadioButton "Greater" 3,
        Call.ImGui_RadioButton "GreaterEqual" 4, Call.ImGui_RadioButton "Equal" 5,
        Call.ImGui_RadioButton "NotEqual" 6, Call.ImGui_RadioButton "Always" 7,
        Call.ImGui_RadioButton "Never" 8,
        Call.ImGui_TextUnformatted "Rasterizer State", Call.ImGui_Checkbox "Wireframe",
        Call.ImGui_TextUnformatted "Cull", Call.ImGui_RadioButton "Front" 10,
        Call.ImGui_RadioButton "Back" 11, Call.ImGui_RadioButton "None" 12,
        Call.ImGui_End].countP p := by
  unfold windowCalls
  simp only [List.countP_append, countP_map_of_false p _ hd, countP_map_of_false p _ hs,
    Nat.add_zero]
  simp only [← List.countP_append]
  rfl

end CameraApplication

/-- C16: in `RenderUi`, `ImGui::End` is called exactly when `ImGui::Begin` returned true;
`ImGui::NewFrame`, `ImGui::Render` and `ImGui_ImplDX11_RenderDrawData` are each called once
in both cases; when `Begin` returns false no `SetDepthStencilState` or `SetRasterizerState`
call is made, whatever the selection members hold, and the pipeline keeps its states. -/
theorem C16_window_closed (ui : UiInput) (r : Traced CameraApplication) :
    (callsOf (callsSince r (CameraApplication.RenderUi ui r))).countP Call.isImGuiEnd =
      (if ui.beginOpen then 1 else 0) ∧
    (callsOf (callsSince r (CameraApplication.RenderUi ui r))).countP Call.isImGuiNewFrame
      = 1 ∧
    (callsOf (callsSince r (CameraApplication.RenderUi ui r))).countP Call.isImGuiRender = 1 ∧
    (callsOf (callsSince r (CameraApplication.RenderUi ui r))).countP Call.isOverlayDraw = 1 ∧
    (ui.beginOpen = false →
      (callsOf (callsSince r (CameraApplication.RenderUi ui r))).countP Call.isStateSet = 0 ∧
      (CameraApplication.RenderUi ui r).app.pipelineDepthStencilState =
        r.app.pipelineDepthStencilState ∧
      (CameraApplication.RenderUi ui r).app.pipelineRasterizerState =
        r.app.pipelineRasterizerState) := by
  rw [CameraApplication.RenderUi_calls, CameraApplication.RenderUi_eq]
  unfold CameraApplication.uiCalls
  cases hopen : ui.beginOpen
  · exact ⟨rfl, rfl, rfl, rfl, fun _ => ⟨rfl, rfl, rfl⟩⟩
  · simp only [if_true, List.countP_append,
      CameraApplication.countP_windowCalls Call.isImGuiEnd (fun _ => rfl) (fun _ => rfl),
      CameraApplication.countP_windowCalls Call.isImGuiNewFrame (fun _ => rfl) (fun _ => rfl),
      CameraApplication.countP_windowCalls Call.isImGuiRender (fun _ => rfl) (fun _ => rfl),
      CameraApplication.countP_windowCalls Call.isOverlayDraw (fun _ => rfl) (fun _ => rfl)]
    refine ⟨rfl, rfl, rfl, rfl, ?_⟩
    intro h
    exact Bool.noConfusion h

/-! ## Render state across frames -/

theorem Precedes_of_no_first (p q : Call → Bool) (l : List Call)
    (h : ∀ c ∈ l, p c = false) : Precedes p q l := by
  unfold Precedes
  apply List.pairwise_of_forall_mem_list
  intro a _ b hb hab
  rw [h b hb] at hab
  exact Bool.noConfusion hab.2

theorem Precedes_of_no_second (p q : Call → Bool) (l : List Call)
    (h : ∀ c ∈ l, q c = false) : Precedes p q l := by
  unfold Precedes
  apply List.pairwise_of_forall_mem_list
  intro a ha b _ hab
  rw [h a ha] at hab
  exact Bool.noConfusion hab.1

namespace CameraApplication

theorem uiCalls_no_sceneStep (ui : UiInput) (s : CameraApplication) :
    ∀ c ∈ uiCalls ui s ++ [Call.Present 1 0], c.isSceneStep = false := by
  have hcount : (uiCalls ui s ++ [Call.Present 1 0]).countP Call.isSceneStep = 0 := by
    unfold uiCalls
    cases hopen : ui.beginOpen
    · rfl
    · simp only [if_true, List.countP_append,
        countP_windowCalls Call.isSceneStep (fun _ => rfl) (fun _ => rfl)]
      rfl
  intro c hc
  have := List.countP_eq_zero.1 hcount c hc
  simpa using this

theorem Render_split (ui : UiInput) (r : Traced CameraApplication) :
    Render ui r = emit (Call.Present 1 0) (RenderUi ui (Render_scene r)) := rfl

theorem Render_scene_eq (r : Traced CameraApplication) :
    Render_scene r =
      ⟨r.app, r.trace ++ stamp (heldViews r.app)
        [Call.Camera_Update, Call.Camera_GetCameraConstants,
          Call.UpdateSubresource Member._cameraConstantBuffer,
          Call.Clear r.app._renderTarget r.app._depthStencilView, Call.SetPipeline,
          Call.SetVertexBuffer Member._modelVertices,
          Call.SetIndexBuffer Member._modelIndices, Call.DrawIndexed]⟩ := by
  simp [Render_scene, emit_eq, stamp]

theorem renderAll_append (uis : List UiInput) (ui : UiInput) (r : Traced CameraApplication) :
    renderAll (uis ++ [ui]) r = Render ui (renderAll uis r) := by
  simp [renderAll]

end CameraApplication

/-- C15: in every `CameraApplication::Render`, each `SetDepthStencilState` and
`SetRasterizerState` call comes after that frame's `SetPipeline` and `DrawIndexed`.  `Render`
is its scene part (up to `DrawIndexed`), then `RenderUi`, then `Present`; the scene part makes
no state-setter call and leaves the pipeline states as they were on entry.  Hence the states
on the pipeline at the draw of a frame that follows the frame with input `ui` are the ones
the `RenderUi` of that previous frame left, and at the first frame's draw they are the ones
the application held before `Render` was first called. -/
theorem C15_state_applies_next_frame :
    (∀ (ui : UiInput) (r : Traced CameraApplication),
      Precedes Call.isSceneStep Call.isStateSet
        (callsOf (callsSince r (CameraApplication.Render ui r))) ∧
      (callsOf (callsSince r (CameraApplication.Render ui r))).countP Call.isSceneStep = 2 ∧
      CameraApplication.Render ui r =
        CameraApplication.emit (Call.Present 1 0)
          (CameraApplication.RenderUi ui (CameraApplication.Render_scene r))) ∧
    (∀ r : Traced CameraApplication,
      (callsOf (callsSince r (CameraApplication.Render_scene r))).countP Call.isStateSet = 0 ∧
      (callsOf (callsSince r (CameraApplication.Render_scene r))).getLast? =
        some Call.DrawIndexed ∧
      (CameraApplication.Render_scene r).app.pipelineDepthStencilState =
        r.app.pipelineDepthStencilState ∧
      (CameraApplication.Render_scene r).app.pipelineRasterizerState =
        r.app.pipelineRasterizerState) ∧
    (∀ (uis : List UiInput) (ui : UiInput) (r : Traced CameraApplication),
      (CameraApplication.Render_scene
          (CameraApplication.renderAll (uis ++ [ui]) r)).app.pipelineDepthStencilState =
        (CameraApplication.RenderUi ui (CameraApplication.Render_scene
          (CameraApplication.renderAll uis r))).app.pipelineDepthStencilState ∧
      (CameraApplication.Render_scene
          (CameraApplication.renderAll (uis ++ [ui]) r)).app.pipelineRasterizerState =
        (CameraApplication.RenderUi ui (CameraApplication.Render_scene
          (CameraApplication.renderAll uis r))).app.pipelineRasterizerState) := by
  refine ⟨?_, ?_, ?_⟩
  · intro ui r
    refine ⟨?_, ?_, CameraApplication.Render_split ui r⟩
    · rw [CameraApplication.Render_calls]
      unfold CameraApplication.renderCalls
      rw [List.append_assoc]
      unfold Precedes
      rw [List.pairwise_append]
      refine ⟨?_, ?_, ?_⟩
      · exact Precedes_of_no_second Call.isSceneStep Call.isStateSet _
          (by intro c hc; simp at hc; rcases hc with h | h | h | h | h | h | h | h <;>
            rw [h] <;> rfl)
      · exact Precedes_of_no_first Call.isSceneStep Call.isStateSet _
          (CameraApplication.uiCalls_no_sceneStep ui r.app)
      · intro a ha b hb hab
        rw [CameraApplication.uiCalls_no_sceneStep ui r.app b hb] at hab
        exact Bool.noConfusion hab.2
    · rw [CameraApplication.Render_calls]
      unfold CameraApplication.renderCalls
      rw [List.append_assoc, List.countP_append]
      have h0 : (CameraApplication.uiCalls ui r.app ++ [Call.Present 1 0]).countP
          Call.isSceneStep = 0 :=
        List.countP_eq_zero.2 (fun c hc => by
          simp [CameraApplication.uiCalls_no_sceneStep ui r.app c hc])
      rw [h0]
      rfl
  · intro r
    rw [CameraApplication.Render_scene_eq, callsSince_append r _ _ rfl, callsOf_stamp]
    exact ⟨rfl, rfl, rfl, rfl⟩
  · intro uis ui r
    rw [CameraApplication.renderAll_append, CameraApplication.Render_split]
    simp only [CameraApplication.Render_scene_eq, CameraApplication.emit_eq]
    exact ⟨trivial, trivial⟩

/-! ## Rotation of the model -/

namespace CameraApplication

theorem emit_app (c : Call) (r : Traced CameraApplication) : (emit c r).app = r.app := rfl

theorem ite_emit_app (b : Bool) (c : Call) (r : Traced CameraApplication) :
    (if b = true then emit c r else r).app = r.app := by
  cases b <;> rfl

theorem ite_emit_emit_app (b : Bool) (c d : Call) (r : Traced CameraApplication) :
    (if b = true then emit d (emit c r) else r).app = r.app := by
  cases b <;> rfl

theorem Update_fst (inp : UpdateInput) (angle : Rat) (r : Traced CameraApplication) :
    (Update inp angle r).1 =
      (if r.app._toggledRotation then angle + 3 / 200 else angle - 3 / 200) := by
  unfold Update
  simp only [ite_emit_emit_app, ite_emit_app, emit_app]
  norm_num

theorem Update_app (inp : UpdateInput) (angle : Rat) (r : Traced CameraApplication) :
    (Update inp angle r).2.app = r.app := by
  unfold Update
  simp only [ite_emit_emit_app, ite_emit_app, emit_app]

theorem updateAll_fst (inps : List UpdateInput) :
    ∀ (angle : Rat) (r : Traced CameraApplication),
      (updateAll inps angle r).1 =
        (if r.app._toggledRotation then angle + (inps.length : Rat) * (3 / 200)
          else angle - (inps.length : Rat) * (3 / 200)) := by
  induction inps with
  | nil => intro angle r; simp [updateAll]
  | cons inp inps ih =>
    intro angle r
    have hstep : updateAll (inp :: inps) angle r =
        updateAll inps (Update inp angle r).1 (Update inp angle r).2 := rfl
    rw [hstep, ih, Update_app, Update_fst]
    cases r.app._toggledRotation <;> simp <;> ring

end CameraApplication

/-- C17: taken as exact rational arithmetic, every `Update` moves the rotation angle by
`90 * (10 / 60000) = 3/200` degrees: up when `_toggledRotation` is true, down when it is
false, so it never leaves the angle unchanged; `Update` does not change `_toggledRotation`,
and after `n` calls the angle has moved by `n * 3/200` in the direction of the toggle. -/
theorem C17_rotation_step :
    ((90 : Rat) * (10 / 60000) = 3 / 200) ∧
    (∀ (inp : UpdateInput) (angle : Rat) (r : Traced CameraApplication),
      (r.app._toggledRotation = true →
        (CameraApplication.Update inp angle r).1 = angle + 3 / 200) ∧
      (r.app._toggledRotation = false →
        (CameraApplication.Update inp angle r).1 = angle - 3 / 200) ∧
      |(CameraApplication.Update inp angle r).1 - angle| = 3 / 200 ∧
      (CameraApplication.Update inp angle r).1 ≠ angle ∧
      (CameraApplication.Update inp angle r).2.app._toggledRotation =
        r.app._toggledRotation) ∧
    (∀ (inps : List UpdateInput) (angle : Rat) (r : Traced CameraApplication),
      (r.app._toggledRotation = true →
        (CameraApplication.updateAll inps angle r).1 =
          angle + (inps.length : Rat) * (3 / 200)) ∧
      (r.app._toggledRotation = false →
        (CameraApplication.updateAll inps angle r).1 =
          angle - (inps.length : Rat) * (3 / 200))) := by
  refine ⟨by norm_num, ?_, ?_⟩
  · intro inp angle r
    rw [CameraApplication.Update_fst, CameraApplication.Update_app]
    cases r.app._toggledRotation
    · refine ⟨fun h => Bool.noConfusion h, fun _ => by simp, ?_, ?_, rfl⟩
      · simp only [Bool.false_eq_true, if_false]
        rw [show angle - 3 / 200 - angle = -(3 / 200 : Rat) by ring, abs_neg]
        norm_num
      · simp only [Bool.false_eq_true, if_false]
        intro h
        linarith
    · refine ⟨fun _ => by simp, fun h => Bool.noConfusion h, ?_, ?_, rfl⟩
      · simp only [if_true]
        rw [show angle + 3 / 200 - angle = (3 / 200 : Rat) by ring]
        norm_num
      · simp only [if_true]
        intro h
        linarith
  · intro inps angle r
    rw [CameraApplication.updateAll_fst]
    cases r.app._toggledRotation
    · exact ⟨fun h => Bool.noConfusion h, fun _ => by simp⟩
    · exact ⟨fun _ => by simp, fun h => Bool.noConfusion h⟩

end LearnD3D11
